import Mathlib

/-!
# Verification of the weather-analysis fetch/cache/parse pipeline

Shallow embedding of `src/weather-analysis/src/data_fetcher.py`
(class `UniversalWeatherFetcher`) and of the configuration data it reads from
`src/weather-analysis/config/config.py` (class `WeatherConfig`), together with
proofs settling the specification claims about this component.

Modelling conventions:
* Python JSON values (the payloads returned by `response.json()` / `json.load`)
  are the inductive type `Json`; Python truthiness on them is `Json.truthy`.
* Python numbers (floats) are modelled as rationals `ℚ`.
* Python exceptions that the code can raise are the type `PyExc`; fallible
  code returns `Except PyExc _`.  Subscripting a dict/list is `Json.getItem`
  / `Json.getIdx`, which raise `KeyError` / `IndexError` / `TypeError`
  exactly where CPython would.
* The on-disk cache directory is an association list from file name to file
  content and modification time.  Since `_save_to_cache` always writes the
  `json.dump` of a JSON tree and `json.load` parses it back, a cache file's
  content is modelled as either a JSON tree (`FileContent.valid`) or
  externally corrupted bytes (`FileContent.corrupt`), on which `json.load`
  raises a decode error.
* Wall-clock time is a rational number of POSIX seconds; the machine's local
  timezone (used by `datetime.now()` / `datetime.fromtimestamp`) is a fixed
  offset `Env.tzOffset` in seconds.  Calendar dates are obtained from day
  numbers with the standard civil-from-days algorithm.
* `hashlib.md5(...).hexdigest()[:8]` is a library primitive, modelled as an
  ambient function `Env.hash8 : String → String`; no theorem depends on its
  internals, only on it being a function of the key string.
* The remote HTTP service is an oracle `RemoteOracle`: one response per
  request parameter tuple.  `HttpResult.response s b` is a reply with status
  `s` whose `.json()` method yields `b`; `HttpResult.netExn` is a network
  exception raised by `session.get` (timeout, DNS failure, connection reset).
-/

/-- JSON value, as produced by `response.json()` / `json.load`. -/
inductive Json where
  | null : Json
  | bool : Bool → Json
  | num : ℚ → Json
  | str : String → Json
  | arr : List Json → Json
  | obj : List (String × Json) → Json

/-- Python truthiness of a JSON value (`if data:`). -/
def Json.truthy : Json → Bool
  | .null => false
  | .bool b => b
  | .num q => q != 0
  | .str s => !s.isEmpty
  | .arr xs => !xs.isEmpty
  | .obj kvs => !kvs.isEmpty

/-- Exceptions the embedded Python code can raise. -/
inductive PyExc where
  | keyError : String → PyExc
  | indexError : PyExc
  | typeError : PyExc
  | attributeError : PyExc
  | jsonDecodeError : PyExc
deriving DecidableEq

/-- `data[k]` on a JSON value: `KeyError` when the key is absent from a dict,
`TypeError` when the value is not a dict. -/
def Json.getItem : Json → String → Except PyExc Json
  | .obj kvs, k =>
      match kvs.lookup k with
      | some v => .ok v
      | none => .error (.keyError k)
  | _, _ => .error .typeError

/-- `data[i]` on a JSON value: `IndexError` when the list is too short,
`TypeError` when the value is not a list. -/
def Json.getIdx : Json → Nat → Except PyExc Json
  | .arr xs, i =>
      match xs.get? i with
      | some v => .ok v
      | none => .error .indexError
  | _, _ => .error .typeError

/-- `data.get(k, default)` on a JSON value: `AttributeError` when the value is
not a dict (no `.get` method). -/
def Json.dictGet : Json → String → Json → Except PyExc Json
  | .obj kvs, k, d => .ok ((kvs.lookup k).getD d)
  | _, _, _ => .error .attributeError

/-- Coerce a JSON value to a number, as the arithmetic and comparison
operators of the code require; anything non-numeric raises `TypeError`. -/
def Json.asNum : Json → Except PyExc ℚ
  | .num q => .ok q
  | _ => .error .typeError

/-- Python `x or y` on an optional string argument (used for
`city or config.CITY` and friends): `None` and the empty string are falsy. -/
def pyOrStr : Option String → String → String
  | some s, d => if s.isEmpty then d else s
  | none, d => d

/-- Python `x or y` on an optional integer argument
(`days or config.FORECAST_DAYS`): `None` and `0` are falsy. -/
def pyOrNat : Option Nat → Nat → Nat
  | some n, d => if n = 0 then d else n
  | none, d => d

/-- Python `x or y` on an optional float argument
(`lat or config.LAT`): `None` and `0.0` are falsy. -/
def pyOrRat : Option ℚ → ℚ → ℚ
  | some q, d => if q = 0 then d else q
  | none, d => d

/-! ## Configuration (`config/config.py`, class `WeatherConfig`)

Only the fields the fetcher reads are modelled; they are externally supplied
(environment variables), so theorems quantify over them. -/

structure WeatherConfig where
  CITY : String
  COUNTRY : String
  LAT : ℚ
  LON : ℚ
  USE_CACHE : Bool
  CACHE_HOURS : Nat
  FORECAST_DAYS : Nat
  LANGUAGE : String

/-- The fixed English → Chinese condition lookup table
(`WeatherConfig._load_weather_mappings`). -/
def WEATHER_MAP : List (String × String) :=
  [("Clear", "晴朗"),
   ("Clouds", "多云"),
   ("Rain", "降雨"),
   ("Snow", "降雪"),
   ("Thunderstorm", "雷暴"),
   ("Drizzle", "毛毛雨"),
   ("Mist", "薄雾"),
   ("Fog", "雾"),
   ("Haze", "霾"),
   ("Dust", "沙尘"),
   ("Smoke", "烟雾"),
   ("Ash", "火山灰"),
   ("Squall", "飑"),
   ("Tornado", "龙卷风")]

/-! ## Time and formatting helpers (`datetime` library primitives) -/

/-- Ambient machine environment: the md5-prefix hash primitive and the local
timezone offset in seconds. -/
structure Env where
  hash8 : String → String
  tzOffset : ℤ

/-- Civil calendar date (year, month, day) from a day number
(days since 1970-01-01); the standard civil-from-days algorithm.
All divisions are Euclidean (equal to floor division here since every divisor
is positive), matching the usual C formulation. -/
def civilFromDays (z0 : ℤ) : ℤ × ℤ × ℤ :=
  let z := z0 + 719468
  let era := z / 146097
  let doe := z - era * 146097
  let yoe := (doe - doe / 1460 + doe / 36524 - doe / 146096) / 365
  let y := yoe + era * 400
  let doy := doe - (365 * yoe + yoe / 4 - yoe / 100)
  let mp := (5 * doy + 2) / 153
  let d := doy - (153 * mp + 2) / 5 + 1
  let m := mp + (if mp < 10 then 3 else -9)
  (y + (if m ≤ 2 then 1 else 0), m, d)

/-- One decimal digit character (`strftime` renders fields in decimal). -/
def decDigit (n : ℕ) : Char :=
  if n = 0 then '0' else if n = 1 then '1' else if n = 2 then '2'
  else if n = 3 then '3' else if n = 4 then '4' else if n = 5 then '5'
  else if n = 6 then '6' else if n = 7 then '7' else if n = 8 then '8'
  else '9'

/-- Two-digit zero-padded decimal rendering (`%m`, `%d`, `%H`, `%M`, `%S`);
the fields `strftime` renders through these are non-negative and below 100. -/
def pad2 (n : ℤ) : String :=
  String.mk [decDigit (n.toNat / 10 % 10), decDigit (n.toNat % 10)]

/-- Four-digit zero-padded decimal rendering of the year (`%Y`); current
calendar years are non-negative and fit in four digits. -/
def pad4 (n : ℤ) : String :=
  String.mk [decDigit (n.toNat / 1000 % 10), decDigit (n.toNat / 100 % 10),
             decDigit (n.toNat / 10 % 10), decDigit (n.toNat % 10)]

/-- Local day number of a POSIX timestamp. -/
def localDay (env : Env) (t : ℚ) : ℤ :=
  (⌊t⌋ + env.tzOffset) / 86400

/-- Local second-of-day of a POSIX timestamp. -/
def localSecOfDay (env : Env) (t : ℚ) : ℤ :=
  (⌊t⌋ + env.tzOffset) % 86400

/-- Local calendar date of a POSIX timestamp, as the (year, month, day)
triple `datetime.fromtimestamp` exposes. -/
def localDate (env : Env) (t : ℚ) : ℤ × ℤ × ℤ :=
  civilFromDays (localDay env t)

/-- `datetime.fromtimestamp(t).strftime('%Y%m%d')`. -/
def dateStr (env : Env) (t : ℚ) : String :=
  let ymd := localDate env t
  pad4 ymd.1 ++ pad2 ymd.2.1 ++ pad2 ymd.2.2

/-- `datetime.fromtimestamp(t).strftime('%H:%M:%S')`. -/
def fmtHMS (env : Env) (t : ℚ) : String :=
  let sod := localSecOfDay env t
  pad2 (sod / 3600) ++ ":" ++ pad2 (sod % 3600 / 60) ++ ":" ++ pad2 (sod % 60)

/-- `datetime.fromtimestamp(t).strftime('%Y-%m-%d %H:%M:%S')`. -/
def fmtFull (env : Env) (t : ℚ) : String :=
  let ymd := localDate env t
  pad4 ymd.1 ++ "-" ++ pad2 ymd.2.1 ++ "-" ++ pad2 ymd.2.2 ++ " " ++ fmtHMS env t

/-- Round-half-to-even to an integer (Python `round(x)` semantics). -/
def roundHalfEven (q : ℚ) : ℤ :=
  let n := ⌊q⌋
  let f := q - n
  if f < 1/2 then n
  else if 1/2 < f then n + 1
  else if Even n then n else n + 1

/-- Python `round(x, 1)`: round half-to-even to one decimal place. -/
def round1 (q : ℚ) : ℚ :=
  (roundHalfEven (q * 10) : ℚ) / 10

/-! ## Cache directory (`data/raw`, owned by the fetcher) -/

/-- Content of one cache file: a JSON tree as written by `json.dump`, or
externally corrupted bytes on which `json.load` raises a decode error. -/
inductive FileContent where
  | valid : Json → FileContent
  | corrupt : FileContent

/-- `json.load` on a cache file's content. -/
def FileContent.jsonLoad : FileContent → Except PyExc Json
  | .valid j => .ok j
  | .corrupt => .error .jsonDecodeError

/-- One cache file: content plus modification time (POSIX seconds). -/
structure CacheFile where
  content : FileContent
  mtime : ℚ

/-- The cache directory: file name to file, newest entry first. -/
abbrev CacheState := List (String × CacheFile)

/-- A parsed-weather record / comparison row: a Python dict in insertion
order. -/
abbrev JObj := List (String × Json)

/-- The key string `"{city}_{endpoint}_{date_str}"` hashed by
`_get_cache_key`, where the date is today's `%Y%m%d`. -/
def cache_key_string (env : Env) (now : ℚ) (city endpoint : String) : String :=
  city ++ "_" ++ endpoint ++ "_" ++ dateStr env now

/-- `UniversalWeatherFetcher._get_cache_key`: md5-prefix hash of the key
string. -/
def get_cache_key (env : Env) (now : ℚ) (city endpoint : String) : String :=
  env.hash8 (cache_key_string env now city endpoint)

/-- File name `"{cache_key}_{endpoint}.json"` used by both cache helpers. -/
def cacheFileName (cache_key endpoint : String) : String :=
  cache_key ++ "_" ++ endpoint ++ ".json"

/-- `UniversalWeatherFetcher._load_from_cache`: `None` when caching is
disabled, the file is absent, or the file is stale
(`now - mtime ≥ CACHE_HOURS` hours); otherwise `json.load` of the file. -/
def load_from_cache (cfg : WeatherConfig) (st : CacheState) (now : ℚ)
    (cache_key endpoint : String) : Except PyExc (Option Json) :=
  if !cfg.USE_CACHE then .ok none
  else
    match st.lookup (cacheFileName cache_key endpoint) with
    | some file =>
        if now - file.mtime < (cfg.CACHE_HOURS : ℚ) * 3600 then do
          let j ← file.content.jsonLoad
          .ok (some j)
        else .ok none
    | none => .ok none

/-- `UniversalWeatherFetcher._save_to_cache`: write `data` to
`"{cache_key}_{endpoint}.json"`, stamping the current time. -/
def save_to_cache (st : CacheState) (now : ℚ) (cache_key endpoint : String)
    (data : Json) : CacheState :=
  (cacheFileName cache_key endpoint, ⟨.valid data, now⟩) :: st

/-! ## The remote HTTP service -/

/-- Result of one `session.get`: a response with a status code and the value
`.json()` yields on its body (which can itself raise a decode error), or a
network exception (timeout, DNS failure, connection reset). -/
inductive HttpResult where
  | response : Nat → Except PyExc Json → HttpResult
  | netExn : HttpResult

/-- The remote weather provider, one deterministic reply per request
parameter tuple: `/weather` queried by `q="{city},{country}"`, `/forecast`
queried by city, country and `cnt`, and `/weather` queried by `lat`/`lon`. -/
structure RemoteOracle where
  weather : String → String → HttpResult
  forecast : String → String → Nat → HttpResult
  coordWeather : ℚ → ℚ → HttpResult

/-- Which branch of a fetch operation ran, observable through the printed
messages: cache hit, successful fetch (200), 404 (`未找到城市`), other bad
status (`请求失败`), or caught exception (`网络错误`). -/
inductive FetchOutcome where
  | cacheHit : FetchOutcome
  | fetched : FetchOutcome
  | notFound : FetchOutcome
  | badStatus : Nat → FetchOutcome
  | netError : FetchOutcome
deriving DecidableEq

/-- Result of one fetch operation: the Python return value (`None` or the
payload), the branch taken, the number of remote requests issued, and the
cache directory afterwards. -/
structure FetchRes where
  data : Option Json
  outcome : FetchOutcome
  requests : Nat
  state : CacheState

/-- The `try` block of `get_current_weather` (the blocking GET on
`{base_url}/weather` and the handling of its response; every exception inside
it is caught by the `except` clause, so it returns a plain `FetchRes`):
status 200 saves to cache and returns the body, 404 prints `未找到城市` and
returns `None`, any other status prints `请求失败` and returns `None`, and a
raised exception prints `网络错误` and returns `None`. -/
def weather_try_block (remote : RemoteOracle) (now : ℚ) (st : CacheState)
    (cache_key target_city target_country : String) : FetchRes :=
  match remote.weather target_city target_country with
  | .response status body =>
      if status = 200 then
        match body with
        | .ok data => ⟨some data, .fetched, 1, save_to_cache st now cache_key "current" data⟩
        | .error _ => ⟨none, .netError, 1, st⟩
      else if status = 404 then
        ⟨none, .notFound, 1, st⟩
      else
        ⟨none, .badStatus status, 1, st⟩
  | .netExn => ⟨none, .netError, 1, st⟩

/-- `UniversalWeatherFetcher.get_current_weather`. -/
def get_current_weather (cfg : WeatherConfig) (env : Env) (remote : RemoteOracle)
    (now : ℚ) (st : CacheState) (city country : Option String) :
    Except PyExc FetchRes := do
  let target_city := pyOrStr city cfg.CITY
  let target_country := pyOrStr country cfg.COUNTRY
  let cache_key := get_cache_key env now target_city "current"
  let cached_data ← load_from_cache cfg st now cache_key "current"
  if (cached_data.getD .null).truthy then
    return ⟨cached_data, .cacheHit, 0, st⟩
  return weather_try_block remote now st cache_key target_city target_country

/-- The `try` block of `get_forecast`: status 200 saves to cache and returns
the body, any other status prints `预报请求失败` and returns `None`, and a
raised exception prints `网络错误` and returns `None`. -/
def forecast_try_block (remote : RemoteOracle) (now : ℚ) (st : CacheState)
    (cache_key target_city target_country : String) (cnt : Nat) : FetchRes :=
  match remote.forecast target_city target_country cnt with
  | .response status body =>
      if status = 200 then
        match body with
        | .ok data => ⟨some data, .fetched, 1, save_to_cache st now cache_key "forecast" data⟩
        | .error _ => ⟨none, .netError, 1, st⟩
      else
        ⟨none, .badStatus status, 1, st⟩
  | .netExn => ⟨none, .netError, 1, st⟩

/-- `UniversalWeatherFetcher.get_forecast`. -/
def get_forecast (cfg : WeatherConfig) (env : Env) (remote : RemoteOracle)
    (now : ℚ) (st : CacheState) (city country : Option String) (days : Option Nat) :
    Except PyExc FetchRes := do
  let target_city := pyOrStr city cfg.CITY
  let target_country := pyOrStr country cfg.COUNTRY
  let target_days := pyOrNat days cfg.FORECAST_DAYS
  let cache_key := get_cache_key env now (target_city ++ "_forecast") "forecast"
  let cached_data ← load_from_cache cfg st now cache_key "forecast"
  if (cached_data.getD .null).truthy then
    return ⟨cached_data, .cacheHit, 0, st⟩
  return forecast_try_block remote now st cache_key target_city target_country (target_days * 8)

/-- `UniversalWeatherFetcher.get_weather_by_coordinates`: no cache read, no
cache write; any non-200 status (404 included) prints `坐标请求失败`. -/
def get_weather_by_coordinates (cfg : WeatherConfig) (remote : RemoteOracle)
    (st : CacheState) (lat lon : Option ℚ) : Except PyExc FetchRes :=
  let target_lat := pyOrRat lat cfg.LAT
  let target_lon := pyOrRat lon cfg.LON
  match remote.coordWeather target_lat target_lon with
  | .response status body =>
      if status = 200 then
        match body with
        | .ok data => .ok ⟨some data, .fetched, 1, st⟩
        | .error _ => .ok ⟨none, .netError, 1, st⟩
      else .ok ⟨none, .badStatus status, 1, st⟩
  | .netExn => .ok ⟨none, .netError, 1, st⟩

/-- `UniversalWeatherFetcher.calculate_comfort_index`. -/
def calculate_comfort_index (temp humidity wind_speed : ℚ) : String :=
  let temp_score :=
    if temp < 0 then "严寒"
    else if temp < 10 then "寒冷"
    else if temp < 18 then "凉爽"
    else if temp < 26 then "舒适"
    else if temp < 32 then "温暖"
    else "炎热"
  let humidity_adj :=
    if humidity > 85 then "潮湿"
    else if humidity < 30 then "干燥"
    else "适中"
  let wind_adj :=
    if wind_speed > 10 then "大风"
    else if wind_speed > 5 then "有风"
    else "微风"
  let _ := wind_adj
  if temp_score = "舒适" ∧ humidity_adj = "适中" then "非常舒适"
  else if (temp_score = "温暖" ∨ temp_score = "凉爽") ∧ humidity_adj ≠ "潮湿" then "较为舒适"
  else temp_score ++ humidity_adj

/-- `UniversalWeatherFetcher.parse_weather_data` (a `@staticmethod`): `None`
on falsy input, otherwise the flat record dict, with field accesses raising
in the source's evaluation order on malformed payloads. -/
def parse_weather_data (env : Env) (data : Json) (city_display_name : Option String) :
    Except PyExc (Option JObj) :=
  if !data.truthy then .ok none
  else do
    let display_name ←
      match city_display_name with
      | some n =>
          if !n.isEmpty then pure (Json.str n)
          else data.dictGet "name" (.str "未知城市")
      | none => data.dictGet "name" (.str "未知城市")
    let weather0 ← (← data.getItem "weather").getIdx 0
    let weather_en ← weather0.getItem "main"
    let weather_zh :=
      match weather_en with
      | .str s => Json.str ((WEATHER_MAP.lookup s).getD s)
      | other => other
    let actual_name ← data.dictGet "name" (.str "未知")
    let country ← (← data.getItem "sys").getItem "country"
    let dt ← (← data.getItem "dt").asNum
    let descr ← weather0.getItem "description"
    let temp ← (← (← data.getItem "main").getItem "temp").asNum
    let feels_like ← (← (← data.getItem "main").getItem "feels_like").asNum
    let temp_max ← (← (← data.getItem "main").getItem "temp_max").asNum
    let temp_min ← (← (← data.getItem "main").getItem "temp_min").asNum
    let humidity ← (← data.getItem "main").getItem "humidity"
    let pressure ← (← data.getItem "main").getItem "pressure"
    let wind_speed ← (← data.getItem "wind").getItem "speed"
    let wind_deg ← (← data.getItem "wind").dictGet "deg" (.str "无数据")
    let clouds ← (← data.getItem "clouds").getItem "all"
    let visibility ← data.dictGet "visibility" (.str "无数据")
    let sunrise ← (← (← data.getItem "sys").getItem "sunrise").asNum
    let sunset ← (← (← data.getItem "sys").getItem "sunset").asNum
    let timezone ← data.getItem "timezone"
    let parsed : JObj :=
      [("城市", display_name),
       ("实际城市名", actual_name),
       ("国家", country),
       ("更新时间", .str (fmtFull env dt)),
       ("天气状况", weather_zh),
       ("详细描述", descr),
       ("当前温度(℃)", .num (round1 temp)),
       ("体感温度(℃)", .num (round1 feels_like)),
       ("最高温度(℃)", .num (round1 temp_max)),
       ("最低温度(℃)", .num (round1 temp_min)),
       ("湿度(%)", humidity),
       ("气压(hPa)", pressure),
       ("风速(m/s)", wind_speed),
       ("风向(°)", wind_deg),
       ("云量(%)", clouds),
       ("能见度(m)", visibility),
       ("日出时间", .str (fmtHMS env sunrise)),
       ("日落时间", .str (fmtHMS env sunset)),
       ("时区偏移", timezone),
       ("数据来源", .str "OpenWeatherMap")]
    let h ← humidity.asNum
    let w ← wind_speed.asNum
    let comfort := calculate_comfort_index (round1 temp) h w
    .ok (some (parsed ++ [("舒适度评级", .str comfort)]))

/-! ## `compare_cities` -/

/-- One element of the `cities` argument of `compare_cities`: the three dict
keys the loop consumes (`city`, `country`, `display_name`), each possibly
absent. -/
structure CityInfo where
  city : Option String
  country : Option String
  display_name : Option String

/-- Result of `compare_cities`: the comparison rows (the rows of the returned
`DataFrame`, in order), the times at which remote requests were issued, the
cache directory afterwards, and the wall clock afterwards (each loop
iteration ends in `time.sleep(1.1)`). -/
structure CompareRes where
  rows : List JObj
  reqTimes : List ℚ
  state : CacheState
  now : ℚ

/-- `parsed[k]` on a record dict. -/
def jobjGet (kvs : JObj) (k : String) : Except PyExc Json :=
  match kvs.lookup k with
  | some v => .ok v
  | none => .error (.keyError k)

/-- `UniversalWeatherFetcher.compare_cities`: sequential fetch per city,
skipping cities whose fetch failed, sleeping 1.1 s after each iteration. -/
def compare_cities (cfg : WeatherConfig) (env : Env) (remote : RemoteOracle) :
    List CityInfo → CacheState → ℚ → Except PyExc CompareRes
  | [], st, now => .ok ⟨[], [], st, now⟩
  | info :: others, st, now => do
      let country := (info.country).getD "CN"
      let display_name :=
        match info.display_name with
        | some d => some d
        | none => info.city
      let r ← get_current_weather cfg env remote now st info.city (some country)
      let newRows ←
        if (r.data.getD .null).truthy then do
          let parsedOpt ← parse_weather_data env (r.data.getD .null) display_name
          match parsedOpt with
          | some parsed =>
              if (Json.obj parsed).truthy then do
                let c ← jobjGet parsed "城市"
                let t ← jobjGet parsed "当前温度(℃)"
                let ft ← jobjGet parsed "体感温度(℃)"
                let wc ← jobjGet parsed "天气状况"
                let hum ← jobjGet parsed "湿度(%)"
                let ws ← jobjGet parsed "风速(m/s)"
                let cr ← jobjGet parsed "舒适度评级"
                pure [[("城市", c), ("温度(℃)", t), ("体感温度(℃)", ft),
                       ("天气状况", wc), ("湿度(%)", hum), ("风速(m/s)", ws),
                       ("舒适度", cr)]]
              else pure ([] : List JObj)
          | none => pure ([] : List JObj)
        else pure ([] : List JObj)
      let reqHere : List ℚ := if r.requests = 0 then [] else [now]
      let recRes ← compare_cities cfg env remote others r.state (now + 11/10)
      .ok ⟨newRows ++ recRes.rows, reqHere ++ recRes.reqTimes, recRes.state, recRes.now⟩

/-! ## Spec-side definitions

The following definitions transcribe the specification's wording (§4.1,
`calculate_comfort_index` and the error taxonomy); they exist to be compared
against the code-derived definitions above. -/

/-- The spec's six temperature bands with boundaries at 0, 10, 18, 26, 32 °C. -/
inductive TempBand where
  | freezing | cold | cool | comfortable | warm | hot
deriving DecidableEq

/-- Spec: temperature classified by the boundaries 0, 10, 18, 26, 32. -/
def specTempBand (t : ℚ) : TempBand :=
  if t < 0 then .freezing
  else if t < 10 then .cold
  else if t < 18 then .cool
  else if t < 26 then .comfortable
  else if t < 32 then .warm
  else .hot

/-- The qualitative label of each temperature band. -/
def TempBand.label : TempBand → String
  | .freezing => "严寒"
  | .cold => "寒冷"
  | .cool => "凉爽"
  | .comfortable => "舒适"
  | .warm => "温暖"
  | .hot => "炎热"

/-- The spec's humidity classes: dry below 30 %, humid above 85 %, moderate
in between (30–85 inclusive). -/
inductive HumBand where
  | dry | moderate | humid
deriving DecidableEq

/-- Spec: humidity classified into dry / moderate / humid. -/
def specHumBand (h : ℚ) : HumBand :=
  if h < 30 then .dry
  else if h ≤ 85 then .moderate
  else .humid

/-- The qualitative label of each humidity class. -/
def HumBand.label : HumBand → String
  | .dry => "干燥"
  | .moderate => "适中"
  | .humid => "潮湿"

/-- Spec: wind classified into light (≤ 5 m/s), breezy (5–10], strong
(> 10). -/
inductive WindBand where
  | light | breezy | strong
deriving DecidableEq

/-- Spec: wind-speed classification. -/
def specWindBand (w : ℚ) : WindBand :=
  if w ≤ 5 then .light
  else if w ≤ 10 then .breezy
  else .strong

/-- The label of each wind class, as computed (but never emitted) by the
code. -/
def WindBand.label : WindBand → String
  | .light => "微风"
  | .breezy => "有风"
  | .strong => "大风"

/-- Spec §4.1 combination rule: comfortable ∧ moderate → "非常舒适";
warm-or-cool ∧ not humid → "较为舒适"; otherwise the concatenation of the
temperature label and the humidity label. -/
def specComfort (t h : ℚ) : String :=
  let tb := specTempBand t
  let hb := specHumBand h
  if tb = .comfortable ∧ hb = .moderate then "非常舒适"
  else if (tb = .warm ∨ tb = .cool) ∧ hb ≠ .humid then "较为舒适"
  else tb.label ++ hb.label

/-- A string contains no wind label ("大风", "有风", "微风") as a substring. -/
def windLabelFree (s : String) : Prop :=
  ¬ ("大风".data <:+: s.data) ∧ ¬ ("有风".data <:+: s.data) ∧ ¬ ("微风".data <:+: s.data)

/-- Spec §7 error taxonomy: the branches reported to the caller as
`TransientError` (network/timeout/non-200/non-404 HTTP status). -/
def FetchOutcome.isTransient : FetchOutcome → Bool
  | .badStatus _ => true
  | .netError => true
  | _ => false

/-- No cache file in the directory is corrupted (all were written by
`json.dump`). -/
def intactState (st : CacheState) : Bool :=
  st.all fun p => match p.2.content with
    | .valid _ => true
    | .corrupt => false

/-! ## Basic lemmas about the embedding -/

@[simp] theorem excBind_ok {ε α β : Type _} (a : α) (f : α → Except ε β) :
    (Except.ok a >>= f) = f a := rfl

@[simp] theorem excBind_error {ε α β : Type _} (e : ε) (f : α → Except ε β) :
    ((Except.error e : Except ε α) >>= f) = (Except.error e : Except ε β) := rfl

@[simp] theorem excPure_eq {ε α : Type _} (a : α) : (pure a : Except ε α) = Except.ok a := rfl

/-- `_load_from_cache` returns the payload when caching is on and the file is
fresh and parses. -/
theorem load_from_cache_hit (cfg : WeatherConfig) (st : CacheState) (now : ℚ)
    (key ep : String) (j : Json) (m : ℚ)
    (hc : cfg.USE_CACHE = true)
    (hlk : st.lookup (cacheFileName key ep) = some ⟨.valid j, m⟩)
    (hfresh : now - m < (cfg.CACHE_HOURS : ℚ) * 3600) :
    load_from_cache cfg st now key ep = .ok (some j) := by
  simp [load_from_cache, hc, hlk, hfresh, FileContent.jsonLoad]

/-- `_load_from_cache` returns `None` on a stale file. -/
theorem load_from_cache_stale (cfg : WeatherConfig) (st : CacheState) (now : ℚ)
    (key ep : String) (f : CacheFile)
    (hlk : st.lookup (cacheFileName key ep) = some f)
    (hstale : ¬ now - f.mtime < (cfg.CACHE_HOURS : ℚ) * 3600) :
    load_from_cache cfg st now key ep = .ok none := by
  cases hc : cfg.USE_CACHE <;> simp [load_from_cache, hc, hlk, hstale]

/-- `_load_from_cache` returns `None` when the file does not exist. -/
theorem load_from_cache_absent (cfg : WeatherConfig) (st : CacheState) (now : ℚ)
    (key ep : String)
    (hlk : st.lookup (cacheFileName key ep) = none) :
    load_from_cache cfg st now key ep = .ok none := by
  cases hc : cfg.USE_CACHE <;> simp [load_from_cache, hc, hlk]

/-- `_load_from_cache` returns `None` when caching is disabled. -/
theorem load_from_cache_disabled (cfg : WeatherConfig) (st : CacheState) (now : ℚ)
    (key ep : String) (hc : cfg.USE_CACHE = false) :
    load_from_cache cfg st now key ep = .ok none := by
  simp [load_from_cache, hc]

/-- Inversion: a loaded payload comes from a fresh valid cache file, with
caching enabled. -/
theorem load_from_cache_ok_some_inv (cfg : WeatherConfig) (st : CacheState) (now : ℚ)
    (key ep : String) (j : Json)
    (h : load_from_cache cfg st now key ep = .ok (some j)) :
    cfg.USE_CACHE = true ∧ ∃ m, st.lookup (cacheFileName key ep) = some ⟨.valid j, m⟩ ∧
      now - m < (cfg.CACHE_HOURS : ℚ) * 3600 := by
  cases hc : cfg.USE_CACHE with
  | false => simp [load_from_cache, hc] at h
  | true =>
    refine ⟨rfl, ?_⟩
    rcases hlk : st.lookup (cacheFileName key ep) with - | f
    · simp [load_from_cache, hc, hlk] at h
    · rcases f with ⟨c, m⟩
      by_cases hfr : now - m < (cfg.CACHE_HOURS : ℚ) * 3600
      · cases c with
        | valid j1 =>
          simp [load_from_cache, hc, hlk, hfr, FileContent.jsonLoad] at h
          subst h
          exact ⟨m, rfl, hfr⟩
        | corrupt => simp [load_from_cache, hc, hlk, hfr, FileContent.jsonLoad] at h
      · simp [load_from_cache, hc, hlk, hfr] at h

/-- The cache file consulted and written by `get_current_weather` at time
`t`. -/
def currentCacheFile (cfg : WeatherConfig) (env : Env) (t : ℚ) (city : Option String) : String :=
  cacheFileName (get_cache_key env t (pyOrStr city cfg.CITY) "current") "current"

/-- The cache file consulted and written by `get_forecast` at time `t`. -/
def forecastCacheFile (cfg : WeatherConfig) (env : Env) (t : ℚ) (city : Option String) : String :=
  cacheFileName (get_cache_key env t (pyOrStr city cfg.CITY ++ "_forecast") "forecast") "forecast"

/-- `get_current_weather` on a truthy cache hit: returns the cached payload,
zero remote requests, cache directory untouched. -/
theorem get_current_weather_hit (cfg : WeatherConfig) (env : Env) (remote : RemoteOracle)
    (now : ℚ) (st : CacheState) (city country : Option String) (c : Json)
    (hl : load_from_cache cfg st now
        (get_cache_key env now (pyOrStr city cfg.CITY) "current") "current" = .ok (some c))
    (ht : c.truthy = true) :
    get_current_weather cfg env remote now st city country = .ok ⟨some c, .cacheHit, 0, st⟩ := by
  simp [get_current_weather, hl, ht]

/-- `get_current_weather` on a cache miss (no payload, or a falsy one):
delegates to the `try` block. -/
theorem get_current_weather_miss (cfg : WeatherConfig) (env : Env) (remote : RemoteOracle)
    (now : ℚ) (st : CacheState) (city country : Option String) (cached : Option Json)
    (hl : load_from_cache cfg st now
        (get_cache_key env now (pyOrStr city cfg.CITY) "current") "current" = .ok cached)
    (ht : (cached.getD .null).truthy = false) :
    get_current_weather cfg env remote now st city country =
      .ok (weather_try_block remote now st
            (get_cache_key env now (pyOrStr city cfg.CITY) "current")
            (pyOrStr city cfg.CITY) (pyOrStr country cfg.COUNTRY)) := by
  simp [get_current_weather, hl, ht]

/-- `get_current_weather` propagates a cache-load exception (it happens
outside the `try` block). -/
theorem get_current_weather_load_error (cfg : WeatherConfig) (env : Env) (remote : RemoteOracle)
    (now : ℚ) (st : CacheState) (city country : Option String) (e : PyExc)
    (hl : load_from_cache cfg st now
        (get_cache_key env now (pyOrStr city cfg.CITY) "current") "current" = .error e) :
    get_current_weather cfg env remote now st city country = .error e := by
  simp [get_current_weather, hl]

/-- `get_forecast` on a truthy cache hit. -/
theorem get_forecast_hit (cfg : WeatherConfig) (env : Env) (remote : RemoteOracle)
    (now : ℚ) (st : CacheState) (city country : Option String) (days : Option Nat) (c : Json)
    (hl : load_from_cache cfg st now
        (get_cache_key env now (pyOrStr city cfg.CITY ++ "_forecast") "forecast") "forecast" = .ok (some c))
    (ht : c.truthy = true) :
    get_forecast cfg env remote now st city country days = .ok ⟨some c, .cacheHit, 0, st⟩ := by
  simp [get_forecast, hl, ht]

/-- `get_forecast` on a cache miss: delegates to the `try` block. -/
theorem get_forecast_miss (cfg : WeatherConfig) (env : Env) (remote : RemoteOracle)
    (now : ℚ) (st : CacheState) (city country : Option String) (days : Option Nat) (cached : Option Json)
    (hl : load_from_cache cfg st now
        (get_cache_key env now (pyOrStr city cfg.CITY ++ "_forecast") "forecast") "forecast" = .ok cached)
    (ht : (cached.getD .null).truthy = false) :
    get_forecast cfg env remote now st city country days =
      .ok (forecast_try_block remote now st
            (get_cache_key env now (pyOrStr city cfg.CITY ++ "_forecast") "forecast")
            (pyOrStr city cfg.CITY) (pyOrStr country cfg.COUNTRY)
            (pyOrNat days cfg.FORECAST_DAYS * 8)) := by
  simp [get_forecast, hl, ht]

/-- `get_forecast` propagates a cache-load exception. -/
theorem get_forecast_load_error (cfg : WeatherConfig) (env : Env) (remote : RemoteOracle)
    (now : ℚ) (st : CacheState) (city country : Option String) (days : Option Nat) (e : PyExc)
    (hl : load_from_cache cfg st now
        (get_cache_key env now (pyOrStr city cfg.CITY ++ "_forecast") "forecast") "forecast" = .error e) :
    get_forecast cfg env remote now st city country days = .error e := by
  simp [get_forecast, hl]

/-- Every run of the `/weather` `try` block issues exactly one remote
request. -/
theorem weather_try_block_requests (remote : RemoteOracle) (now : ℚ) (st : CacheState)
    (k tc tco : String) : (weather_try_block remote now st k tc tco).requests = 1 := by
  unfold weather_try_block
  rcases remote.weather tc tco with ⟨s, e | j⟩ | - <;> dsimp only <;>
    first
    | rfl
    | (split_ifs <;> rfl)

/-- Every run of the `/forecast` `try` block issues exactly one remote
request. -/
theorem forecast_try_block_requests (remote : RemoteOracle) (now : ℚ) (st : CacheState)
    (k tc tco : String) (cnt : Nat) :
    (forecast_try_block remote now st k tc tco cnt).requests = 1 := by
  unfold forecast_try_block
  rcases remote.forecast tc tco cnt with ⟨s, e | j⟩ | - <;> dsimp only <;>
    first
    | rfl
    | (split_ifs <;> rfl)

/-- The `/weather` `try` block writes the cache exactly on a 200 response
with a decodable body. -/
theorem weather_try_block_data_some_inv (remote : RemoteOracle) (now : ℚ) (st : CacheState)
    (k tc tco : String) (d : Json)
    (h : (weather_try_block remote now st k tc tco).data = some d) :
    remote.weather tc tco = .response 200 (.ok d) ∧
      weather_try_block remote now st k tc tco =
        ⟨some d, .fetched, 1, save_to_cache st now k "current" d⟩ := by
  rcases hr : remote.weather tc tco with ⟨s, e | j⟩ | -
  · by_cases hs : s = 200
    · subst hs; simp [weather_try_block, hr] at h
    · by_cases h4 : s = 404 <;> simp [weather_try_block, hr, hs, h4] at h
  · by_cases hs : s = 200
    · subst hs
      simp [weather_try_block, hr] at h
      subst h
      exact ⟨rfl, by simp [weather_try_block, hr]⟩
    · by_cases h4 : s = 404 <;> simp [weather_try_block, hr, hs, h4] at h
  · simp [weather_try_block, hr] at h

/-- The `/forecast` `try` block writes the cache exactly on a 200 response
with a decodable body. -/
theorem forecast_try_block_data_some_inv (remote : RemoteOracle) (now : ℚ) (st : CacheState)
    (k tc tco : String) (cnt : Nat) (d : Json)
    (h : (forecast_try_block remote now st k tc tco cnt).data = some d) :
    remote.forecast tc tco cnt = .response 200 (.ok d) ∧
      forecast_try_block remote now st k tc tco cnt =
        ⟨some d, .fetched, 1, save_to_cache st now k "forecast" d⟩ := by
  rcases hr : remote.forecast tc tco cnt with ⟨s, e | j⟩ | -
  · by_cases hs : s = 200
    · subst hs; simp [forecast_try_block, hr] at h
    · simp [forecast_try_block, hr, hs] at h
  · by_cases hs : s = 200
    · subst hs
      simp [forecast_try_block, hr] at h
      subst h
      exact ⟨rfl, by simp [forecast_try_block, hr]⟩
    · simp [forecast_try_block, hr, hs] at h
  · simp [forecast_try_block, hr] at h

/-- The `/weather` `try` block leaves the cache directory unchanged except on
a 200 response with a decodable body. -/
theorem weather_try_block_state_cases (remote : RemoteOracle) (now : ℚ) (st : CacheState)
    (k tc tco : String) :
    (weather_try_block remote now st k tc tco).state = st ∨
      ∃ j, remote.weather tc tco = .response 200 (.ok j) ∧
        weather_try_block remote now st k tc tco =
          ⟨some j, .fetched, 1, save_to_cache st now k "current" j⟩ := by
  rcases hr : remote.weather tc tco with ⟨s, e | j⟩ | -
  · by_cases hs : s = 200
    · subst hs; left; simp [weather_try_block, hr]
    · by_cases h4 : s = 404 <;> left <;> simp [weather_try_block, hr, hs, h4]
  · by_cases hs : s = 200
    · subst hs
      right
      exact ⟨j, rfl, by simp [weather_try_block, hr]⟩
    · by_cases h4 : s = 404 <;> left <;> simp [weather_try_block, hr, hs, h4]
  · left; simp [weather_try_block, hr]

/-- The `/forecast` `try` block leaves the cache directory unchanged except
on a 200 response with a decodable body. -/
theorem forecast_try_block_state_cases (remote : RemoteOracle) (now : ℚ) (st : CacheState)
    (k tc tco : String) (cnt : Nat) :
    (forecast_try_block remote now st k tc tco cnt).state = st ∨
      ∃ j, remote.forecast tc tco cnt = .response 200 (.ok j) ∧
        forecast_try_block remote now st k tc tco cnt =
          ⟨some j, .fetched, 1, save_to_cache st now k "forecast" j⟩ := by
  rcases hr : remote.forecast tc tco cnt with ⟨s, e | j⟩ | -
  · by_cases hs : s = 200
    · subst hs; left; simp [forecast_try_block, hr]
    · left; simp [forecast_try_block, hr, hs]
  · by_cases hs : s = 200
    · subst hs
      right
      exact ⟨j, rfl, by simp [forecast_try_block, hr]⟩
    · left; simp [forecast_try_block, hr, hs]
  · left; simp [forecast_try_block, hr]

/-- `%Y%m%d` depends only on the local calendar date. -/
theorem dateStr_same_day (env : Env) (t1 t2 : ℚ)
    (h : localDate env t1 = localDate env t2) : dateStr env t1 = dateStr env t2 := by
  unfold dateStr
  rw [h]

/-- Two queries on the same local calendar day hash the same key string,
hence produce the same cache key. -/
theorem get_cache_key_same_day (env : Env) (t1 t2 : ℚ) (city ep : String)
    (h : localDate env t1 = localDate env t2) :
    get_cache_key env t1 city ep = get_cache_key env t2 city ep := by
  unfold get_cache_key cache_key_string
  rw [dateStr_same_day env t1 t2 h]

/-! ## Claim C2 -/

set_option maxHeartbeats 1600000 in
/-- C2: for every temperature, humidity and wind-speed input,
`calculate_comfort_index` agrees with the spec's rule table — six temperature
bands with boundaries at 0, 10, 18, 26, 32 °C, humidity dry/moderate/humid
with boundaries 30 and 85, the comfortable∧moderate and
warm-or-cool∧not-humid shortcut rules, and otherwise the concatenation of the
temperature and humidity labels — and no wind label ever appears in the
result. -/
theorem comfort_index_refines_spec_rule_table (t h w : ℚ) :
    calculate_comfort_index t h w = specComfort t h ∧
    windLabelFree (calculate_comfort_index t h w) := by
  constructor
  · dsimp only [calculate_comfort_index, specComfort, specTempBand, specHumBand]
    split_ifs <;> simp_all [TempBand.label, HumBand.label] <;> linarith
  · dsimp only [calculate_comfort_index, windLabelFree]
    split_ifs <;> refine ⟨by decide, by decide, by decide⟩

/-! ## Claim C5 -/

set_option maxHeartbeats 1600000 in
/-- C5: `calculate_comfort_index` returns exactly "非常舒适" on (22, 50, 3),
exactly "严寒适中" on (-5, 40, 2), and exactly "温暖潮湿" on (28, 90, 12). -/
theorem comfort_index_concrete_examples :
    calculate_comfort_index 22 50 3 = "非常舒适" ∧
    calculate_comfort_index (-5) 40 2 = "严寒适中" ∧
    calculate_comfort_index 28 90 12 = "温暖潮湿" :=
  ⟨rfl, rfl, rfl⟩

@[simp] theorem excMap_ok {ε α β : Type _} (f : α → β) (a : α) :
    Except.map f (.ok a : Except ε α) = .ok (f a) := rfl

@[simp] theorem excMap_error {ε α β : Type _} (f : α → β) (e : ε) :
    Except.map f (.error e : Except ε α) = .error e := rfl

/-! ## Concrete fixtures for witnesses and counterexamples -/

/-- Concrete machine environment: a stand-in for the md5-prefix primitive
(any function of the key string serves) and the UTC+8 timezone of the default
deployment. -/
def envG : Env := ⟨fun s => s.takeRight 8, 28800⟩

/-- Concrete configuration: the defaults of `config.py` (cache enabled, one
freshness hour, five forecast days). -/
def cfgG : WeatherConfig :=
  ⟨"Guilin", "CN", 252741/10000, 1102993/10000, true, 1, 5, "zh_cn"⟩

/-- A remote oracle every request to which raises a network exception. -/
def remoteExn : RemoteOracle :=
  ⟨fun _ _ => .netExn, fun _ _ _ => .netExn, fun _ _ => .netExn⟩

/-! ## Claim C9 -/

/-- C9: `get_weather_by_coordinates` performs no caching — the cache
directory afterwards is exactly the one before, and the returned payload,
branch and request count are independent of the cache directory (so it reads
no cache file either). -/
theorem coordinates_fetch_no_caching (cfg : WeatherConfig) (remote : RemoteOracle)
    (st st2 : CacheState) (lat lon : Option ℚ) :
    ∃ r r2, get_weather_by_coordinates cfg remote st lat lon = .ok r ∧
      get_weather_by_coordinates cfg remote st2 lat lon = .ok r2 ∧
      r.state = st ∧ r2.state = st2 ∧
      r.data = r2.data ∧ r.outcome = r2.outcome ∧ r.requests = r2.requests := by
  rcases hr : remote.coordWeather (pyOrRat lat cfg.LAT) (pyOrRat lon cfg.LON) with ⟨s, e | j⟩ | -
  · by_cases hs : s = 200
    · subst hs
      exact ⟨⟨none, .netError, 1, st⟩, ⟨none, .netError, 1, st2⟩,
        by simp [get_weather_by_coordinates, hr],
        by simp [get_weather_by_coordinates, hr], rfl, rfl, rfl, rfl, rfl⟩
    · exact ⟨⟨none, .badStatus s, 1, st⟩, ⟨none, .badStatus s, 1, st2⟩,
        by simp [get_weather_by_coordinates, hr, hs],
        by simp [get_weather_by_coordinates, hr, hs], rfl, rfl, rfl, rfl, rfl⟩
  · by_cases hs : s = 200
    · subst hs
      exact ⟨⟨some j, .fetched, 1, st⟩, ⟨some j, .fetched, 1, st2⟩,
        by simp [get_weather_by_coordinates, hr],
        by simp [get_weather_by_coordinates, hr], rfl, rfl, rfl, rfl, rfl⟩
    · exact ⟨⟨none, .badStatus s, 1, st⟩, ⟨none, .badStatus s, 1, st2⟩,
        by simp [get_weather_by_coordinates, hr, hs],
        by simp [get_weather_by_coordinates, hr, hs], rfl, rfl, rfl, rfl, rfl⟩
  · exact ⟨⟨none, .netError, 1, st⟩, ⟨none, .netError, 1, st2⟩,
      by simp [get_weather_by_coordinates, hr],
      by simp [get_weather_by_coordinates, hr], rfl, rfl, rfl, rfl, rfl⟩

/-! ## Claim C10 -/

/-- C10: falsy payloads are treated as absent data — a fresh cache file whose
JSON content is falsy (for example `{}`) is a cache miss for both
`get_current_weather` and `get_forecast` and a remote request is issued, and
`parse_weather_data` returns `None` on every falsy raw input. -/
theorem falsy_payloads_treated_as_absent (cfg : WeatherConfig) (env : Env)
    (remote : RemoteOracle) (now : ℚ) (st : CacheState) (city country : Option String)
    (days : Option Nat) (j : Json) (m : ℚ) (data : Json) (disp : Option String) :
    (st.lookup (currentCacheFile cfg env now city) = some ⟨.valid j, m⟩ →
     now - m < (cfg.CACHE_HOURS : ℚ) * 3600 →
     j.truthy = false →
     Except.map FetchRes.requests
       (get_current_weather cfg env remote now st city country) = .ok 1) ∧
    (st.lookup (forecastCacheFile cfg env now city) = some ⟨.valid j, m⟩ →
     now - m < (cfg.CACHE_HOURS : ℚ) * 3600 →
     j.truthy = false →
     Except.map FetchRes.requests
       (get_forecast cfg env remote now st city country days) = .ok 1) ∧
    (data.truthy = false → parse_weather_data env data disp = .ok none) := by
  refine ⟨?_, ?_, ?_⟩
  · intro hlk hfresh htr
    cases hc : cfg.USE_CACHE with
    | false =>
      rw [get_current_weather_miss cfg env remote now st city country none
        (load_from_cache_disabled cfg st now _ _ hc) rfl]
      simp [weather_try_block_requests]
    | true =>
      rw [get_current_weather_miss cfg env remote now st city country (some j)
        (load_from_cache_hit cfg st now _ _ j m hc hlk hfresh) (by simpa using htr)]
      simp [weather_try_block_requests]
  · intro hlk hfresh htr
    cases hc : cfg.USE_CACHE with
    | false =>
      rw [get_forecast_miss cfg env remote now st city country days none
        (load_from_cache_disabled cfg st now _ _ hc) rfl]
      simp [forecast_try_block_requests]
    | true =>
      rw [get_forecast_miss cfg env remote now st city country days (some j)
        (load_from_cache_hit cfg st now _ _ j m hc hlk hfresh) (by simpa using htr)]
      simp [forecast_try_block_requests]
  · intro hf
    simp [parse_weather_data, hf]

/-- The cache directory for the C10 witness: fresh falsy (`{}`) cache files
for both endpoints of the default city, written at time 0. -/
def stFalsy : CacheState :=
  [(currentCacheFile cfgG envG 0 none, ⟨.valid (.obj []), 0⟩),
   (forecastCacheFile cfgG envG 0 none, ⟨.valid (.obj []), 0⟩)]

set_option maxHeartbeats 1600000 in
/-- Witness for C10 at a concrete input. -/
theorem falsy_payloads_treated_as_absent_witness :
    Except.map FetchRes.requests
      (get_current_weather cfgG envG remoteExn 0 stFalsy none none) = .ok 1 ∧
    Except.map FetchRes.requests
      (get_forecast cfgG envG remoteExn 0 stFalsy none none none) = .ok 1 ∧
    parse_weather_data envG (.obj []) none = .ok none := by
  obtain ⟨h1, h2, h3⟩ := falsy_payloads_treated_as_absent cfgG envG remoteExn 0 stFalsy
    none none none (.obj []) 0 (.obj []) none
  exact ⟨h1 rfl (by norm_num [cfgG]) rfl, h2 (by rfl) (by norm_num [cfgG]) rfl, h3 rfl⟩

/-! ## Claim C3 -/

/-- C3: on a cache miss, an HTTP 404 makes `get_current_weather` signal the
NotFound branch, return no data and write no cache file; any other non-200
status or a network exception signals a TransientError branch with no data
and no cache write; and (for every state) the cache directory changes only on
an HTTP 200 response with a decodable body. -/
theorem current_weather_error_taxonomy (cfg : WeatherConfig) (env : Env)
    (remote : RemoteOracle) (now : ℚ) (st : CacheState) (city country : Option String)
    (cached : Option Json)
    (hl : load_from_cache cfg st now
        (get_cache_key env now (pyOrStr city cfg.CITY) "current") "current" = .ok cached)
    (ht : (cached.getD .null).truthy = false) :
    (∀ b, remote.weather (pyOrStr city cfg.CITY) (pyOrStr country cfg.COUNTRY) = .response 404 b →
       get_current_weather cfg env remote now st city country = .ok ⟨none, .notFound, 1, st⟩) ∧
    (∀ s b, s ≠ 200 → s ≠ 404 →
       remote.weather (pyOrStr city cfg.CITY) (pyOrStr country cfg.COUNTRY) = .response s b →
       get_current_weather cfg env remote now st city country = .ok ⟨none, .badStatus s, 1, st⟩ ∧
         FetchOutcome.isTransient (.badStatus s) = true) ∧
    (remote.weather (pyOrStr city cfg.CITY) (pyOrStr country cfg.COUNTRY) = .netExn →
       get_current_weather cfg env remote now st city country = .ok ⟨none, .netError, 1, st⟩ ∧
         FetchOutcome.isTransient .netError = true) ∧
    (∀ st2 r, get_current_weather cfg env remote now st2 city country = .ok r →
       r.state ≠ st2 →
       ∃ j, remote.weather (pyOrStr city cfg.CITY) (pyOrStr country cfg.COUNTRY) =
         .response 200 (.ok j)) := by
  refine ⟨?_, ?_, ?_, ?_⟩
  · intro b hr
    rw [get_current_weather_miss cfg env remote now st city country cached hl ht]
    simp [weather_try_block, hr]
  · intro s b hs h4 hr
    rw [get_current_weather_miss cfg env remote now st city country cached hl ht]
    simp [weather_try_block, hr, hs, h4, FetchOutcome.isTransient]
  · intro hr
    rw [get_current_weather_miss cfg env remote now st city country cached hl ht]
    simp [weather_try_block, hr, FetchOutcome.isTransient]
  · intro st2 r hrun hne
    rcases hload : load_from_cache cfg st2 now
        (get_cache_key env now (pyOrStr city cfg.CITY) "current") "current" with e | c
    · rw [get_current_weather_load_error cfg env remote now st2 city country e hload] at hrun
      exact absurd hrun (by simp)
    · cases htc : (c.getD .null).truthy with
      | true =>
        rcases c with - | c0
        · simp [Json.truthy] at htc
        · rw [get_current_weather_hit cfg env remote now st2 city country c0 hload
            (by simpa using htc)] at hrun
          simp at hrun
          rw [← hrun] at hne
          simp at hne
      | false =>
        rw [get_current_weather_miss cfg env remote now st2 city country c hload htc] at hrun
        simp at hrun
        rcases weather_try_block_state_cases remote now st2
            (get_cache_key env now (pyOrStr city cfg.CITY) "current")
            (pyOrStr city cfg.CITY) (pyOrStr country cfg.COUNTRY) with hsame | ⟨j, hj, -⟩
        · rw [← hrun] at hne
          exact absurd hsame hne
        · exact ⟨j, hj⟩

/-- A remote oracle whose `/weather` endpoint always answers HTTP 404. -/
def remote404 : RemoteOracle :=
  ⟨fun _ _ => .response 404 (.ok .null), fun _ _ _ => .netExn, fun _ _ => .netExn⟩

set_option maxHeartbeats 1600000 in
/-- Witness for C3 at a concrete input: 404 on an empty cache. -/
theorem current_weather_error_taxonomy_witness :
    get_current_weather cfgG envG remote404 0 [] none none = .ok ⟨none, .notFound, 1, []⟩ :=
  (current_weather_error_taxonomy cfgG envG remote404 0 [] none none none rfl rfl).1
    (.ok .null) rfl

/-! ## Claim C7 -/

/-- Digit characters are distinct for distinct digits. -/
theorem decDigit_inj (a b : ℕ) (ha : a < 10) (hb : b < 10)
    (h : decDigit a = decDigit b) : a = b := by
  interval_cases a <;> interval_cases b <;> revert h <;> decide

/-- The `%Y%m%d` components are within the widths the format renders
(any real calendar date satisfies this). -/
abbrev validDate (ymd : ℤ × ℤ × ℤ) : Prop :=
  0 ≤ ymd.1 ∧ ymd.1 < 10000 ∧ 0 ≤ ymd.2.1 ∧ ymd.2.1 < 100 ∧ 0 ≤ ymd.2.2 ∧ ymd.2.2 < 100

/-- `%Y%m%d` output determines the date components, within the rendered
widths. -/
theorem ymdRender_inj (y1 m1 d1 y2 m2 d2 : ℤ)
    (h1 : validDate (y1, m1, d1)) (h2 : validDate (y2, m2, d2))
    (h : pad4 y1 ++ pad2 m1 ++ pad2 d1 = pad4 y2 ++ pad2 m2 ++ pad2 d2) :
    y1 = y2 ∧ m1 = m2 ∧ d1 = d2 := by
  dsimp only [validDate] at h1 h2
  obtain ⟨hy10, hy1, hm10, hm1, hd10, hd1⟩ := h1
  obtain ⟨hy20, hy2, hm20, hm2, hd20, hd2⟩ := h2
  have hd := congrArg String.data h
  simp only [String.data_append, pad4, pad2] at hd
  simp only [List.cons_append, List.nil_append, List.cons.injEq, and_true] at hd
  obtain ⟨e1, e2, e3, e4, e5, e6, e7, e8⟩ := hd
  have g1 := decDigit_inj _ _ (Nat.mod_lt _ (by norm_num)) (Nat.mod_lt _ (by norm_num)) e1
  have g2 := decDigit_inj _ _ (Nat.mod_lt _ (by norm_num)) (Nat.mod_lt _ (by norm_num)) e2
  have g3 := decDigit_inj _ _ (Nat.mod_lt _ (by norm_num)) (Nat.mod_lt _ (by norm_num)) e3
  have g4 := decDigit_inj _ _ (Nat.mod_lt _ (by norm_num)) (Nat.mod_lt _ (by norm_num)) e4
  have g5 := decDigit_inj _ _ (Nat.mod_lt _ (by norm_num)) (Nat.mod_lt _ (by norm_num)) e5
  have g6 := decDigit_inj _ _ (Nat.mod_lt _ (by norm_num)) (Nat.mod_lt _ (by norm_num)) e6
  have g7 := decDigit_inj _ _ (Nat.mod_lt _ (by norm_num)) (Nat.mod_lt _ (by norm_num)) e7
  have g8 := decDigit_inj _ _ (Nat.mod_lt _ (by norm_num)) (Nat.mod_lt _ (by norm_num)) e8
  refine ⟨?_, ?_, ?_⟩ <;> omega

theorem pad2_length (n : ℤ) : (pad2 n).length = 2 := rfl

theorem pad4_length (n : ℤ) : (pad4 n).length = 4 := rfl

/-- `%Y%m%d` always renders eight characters. -/
theorem dateStr_length (env : Env) (t : ℚ) : (dateStr env t).length = 8 := by
  simp [dateStr, String.length_append, pad2_length, pad4_length]

/-- C7: the cache key is a deterministic short hash of (city, endpoint kind,
current calendar date): two queries on the same local calendar day for the
same city and endpoint produce the same key; the key strings fed to the hash
by `get_current_weather` and `get_forecast` for a city are distinct; and
queries on different (in-range) calendar days hash distinct key strings. -/
theorem cache_key_derivation (env : Env) (t1 t2 : ℚ) (city ep : String) :
    (localDate env t1 = localDate env t2 →
       get_cache_key env t1 city ep = get_cache_key env t2 city ep) ∧
    cache_key_string env t1 city "current" ≠
      cache_key_string env t2 (city ++ "_forecast") "forecast" ∧
    (validDate (localDate env t1) → validDate (localDate env t2) →
     localDate env t1 ≠ localDate env t2 →
     cache_key_string env t1 city ep ≠ cache_key_string env t2 city ep) := by
  refine ⟨fun h => get_cache_key_same_day env t1 t2 city ep h, ?_, ?_⟩
  · intro h
    have hl := congrArg String.length h
    have l1 : ("_" : String).length = 1 := rfl
    have l2 : ("current" : String).length = 7 := rfl
    have l3 : ("forecast" : String).length = 8 := rfl
    have l4 : ("_forecast" : String).length = 9 := rfl
    simp only [cache_key_string, String.length_append, dateStr_length, l1, l2, l3, l4] at hl
    omega
  · intro hv1 hv2 hne h
    apply hne
    have hd := congrArg String.data h
    simp only [cache_key_string, String.data_append, List.append_assoc] at hd
    have hd2 := List.append_cancel_left hd
    have hd3 := List.append_cancel_left hd2
    have hd4 := List.append_cancel_left hd3
    have hd5 := List.append_cancel_left hd4
    have hstr : dateStr env t1 = dateStr env t2 := by
      rcases hs1 : dateStr env t1 with ⟨la⟩
      rcases hs2 : dateStr env t2 with ⟨lb⟩
      rw [hs1, hs2] at hd5
      simp only at hd5
      rw [hd5]
    obtain ⟨hy, hm, hdd⟩ := ymdRender_inj (localDate env t1).1 (localDate env t1).2.1
      (localDate env t1).2.2 (localDate env t2).1 (localDate env t2).2.1 (localDate env t2).2.2
      hv1 hv2 (by simpa [dateStr] using hstr)
    exact Prod.ext hy (Prod.ext hm hdd)

set_option maxHeartbeats 1600000 in
/-- Witness for C7 at concrete inputs: two same-day queries collide, the two
endpoints feed distinct key strings, and consecutive days feed distinct key
strings. -/
theorem cache_key_derivation_witness :
    get_cache_key envG 0 "Guilin" "current" = get_cache_key envG 3600 "Guilin" "current" ∧
    cache_key_string envG 0 "Guilin" "current" ≠
      cache_key_string envG 0 ("Guilin" ++ "_forecast") "forecast" ∧
    cache_key_string envG 0 "Guilin" "current" ≠
      cache_key_string envG 86400 "Guilin" "current" := by
  refine ⟨(cache_key_derivation envG 0 3600 "Guilin" "current").1 (by decide),
          (cache_key_derivation envG 0 0 "Guilin" "current").2.1,
          (cache_key_derivation envG 0 86400 "Guilin" "current").2.2 (by decide) (by decide)
            (by decide)⟩

/-! ## Claim C1 -/

/-- C1 (amended): with caching enabled, when a call returns a truthy payload
and a second call for the same city and endpoint follows on the same local
calendar day while the consulted cache file is still fresh
(`now₂ - mtime < CACHE_HOURS` hours), the second call issues zero remote
requests and returns the identical payload; and whenever the cache file the
second call consults is stale or absent, the call issues exactly one remote
request.  Both endpoints (`get_current_weather`, `get_forecast`) are
covered. -/
theorem cache_freshness_discipline (cfg : WeatherConfig) (env : Env) (remote : RemoteOracle)
    (city country : Option String) (days : Option Nat) (st st2 : CacheState)
    (now1 now2 : ℚ) (r1 : FetchRes) (d : Json)
    (hcache : cfg.USE_CACHE = true)
    (hday : localDate env now1 = localDate env now2) :
    (get_current_weather cfg env remote now1 st city country = .ok r1 →
     r1.data = some d → d.truthy = true →
     (∀ f, r1.state.lookup (currentCacheFile cfg env now2 city) = some f →
        now2 - f.mtime < (cfg.CACHE_HOURS : ℚ) * 3600) →
     get_current_weather cfg env remote now2 r1.state city country =
       .ok ⟨some d, .cacheHit, 0, r1.state⟩) ∧
    (get_forecast cfg env remote now1 st city country days = .ok r1 →
     r1.data = some d → d.truthy = true →
     (∀ f, r1.state.lookup (forecastCacheFile cfg env now2 city) = some f →
        now2 - f.mtime < (cfg.CACHE_HOURS : ℚ) * 3600) →
     get_forecast cfg env remote now2 r1.state city country days =
       .ok ⟨some d, .cacheHit, 0, r1.state⟩) ∧
    ((∀ f, st2.lookup (currentCacheFile cfg env now2 city) = some f →
        (cfg.CACHE_HOURS : ℚ) * 3600 ≤ now2 - f.mtime) →
     Except.map FetchRes.requests
       (get_current_weather cfg env remote now2 st2 city country) = .ok 1) ∧
    ((∀ f, st2.lookup (forecastCacheFile cfg env now2 city) = some f →
        (cfg.CACHE_HOURS : ℚ) * 3600 ≤ now2 - f.mtime) →
     Except.map FetchRes.requests
       (get_forecast cfg env remote now2 st2 city country days) = .ok 1) := by
  have hfnC : currentCacheFile cfg env now1 city = currentCacheFile cfg env now2 city := by
    unfold currentCacheFile
    rw [get_cache_key_same_day env now1 now2 _ _ hday]
  have hfnF : forecastCacheFile cfg env now1 city = forecastCacheFile cfg env now2 city := by
    unfold forecastCacheFile
    rw [get_cache_key_same_day env now1 now2 _ _ hday]
  refine ⟨?_, ?_, ?_, ?_⟩
  · -- fresh reuse, current endpoint
    intro h1 hd ht hfresh
    rcases hl : load_from_cache cfg st now1
        (get_cache_key env now1 (pyOrStr city cfg.CITY) "current") "current" with e | c
    · rw [get_current_weather_load_error cfg env remote now1 st city country e hl] at h1
      exact absurd h1 (by simp)
    · cases htc : (c.getD .null).truthy with
      | true =>
        rcases c with - | c0
        · simp [Json.truthy] at htc
        · rw [get_current_weather_hit cfg env remote now1 st city country c0 hl
            (by simpa using htc)] at h1
          simp only [Except.ok.injEq] at h1
          obtain rfl := h1
          simp only at hd
          obtain rfl : d = c0 := (by simpa using hd : c0 = d).symm
          obtain ⟨-, m, hlk, -⟩ := load_from_cache_ok_some_inv cfg st now1 _ _ _ hl
          have hlk2 : st.lookup (currentCacheFile cfg env now2 city) =
              some ⟨.valid d, m⟩ := by
            rw [← hfnC]
            exact hlk
          have hfr2 := hfresh _ hlk2
          exact get_current_weather_hit cfg env remote now2 st city country d
            (load_from_cache_hit cfg st now2 _ _ d m hcache hlk2 hfr2) ht
      | false =>
        rw [get_current_weather_miss cfg env remote now1 st city country c hl htc] at h1
        simp only [Except.ok.injEq] at h1
        obtain rfl := h1
        obtain ⟨hr200, htb⟩ := weather_try_block_data_some_inv remote now1 st _ _ _ d hd
        have hst : (weather_try_block remote now1 st
            (get_cache_key env now1 (pyOrStr city cfg.CITY) "current")
            (pyOrStr city cfg.CITY) (pyOrStr country cfg.COUNTRY)).state =
            save_to_cache st now1
              (get_cache_key env now1 (pyOrStr city cfg.CITY) "current") "current" d := by
          rw [htb]
        rw [hst] at hfresh ⊢
        have hlk2 : (save_to_cache st now1
            (get_cache_key env now1 (pyOrStr city cfg.CITY) "current") "current" d).lookup
            (currentCacheFile cfg env now2 city) = some ⟨.valid d, now1⟩ := by
          rw [← hfnC]
          simp [save_to_cache, currentCacheFile, List.lookup]
        have hfr2 := hfresh _ hlk2
        exact get_current_weather_hit cfg env remote now2 _ city country d
          (load_from_cache_hit cfg _ now2 _ _ d now1 hcache hlk2 hfr2) ht
  · -- fresh reuse, forecast endpoint
    intro h1 hd ht hfresh
    rcases hl : load_from_cache cfg st now1
        (get_cache_key env now1 (pyOrStr city cfg.CITY ++ "_forecast") "forecast") "forecast"
      with e | c
    · rw [get_forecast_load_error cfg env remote now1 st city country days e hl] at h1
      exact absurd h1 (by simp)
    · cases htc : (c.getD .null).truthy with
      | true =>
        rcases c with - | c0
        · simp [Json.truthy] at htc
        · rw [get_forecast_hit cfg env remote now1 st city country days c0 hl
            (by simpa using htc)] at h1
          simp only [Except.ok.injEq] at h1
          obtain rfl := h1
          simp only at hd
          obtain rfl : d = c0 := (by simpa using hd : c0 = d).symm
          obtain ⟨-, m, hlk, -⟩ := load_from_cache_ok_some_inv cfg st now1 _ _ _ hl
          have hlk2 : st.lookup (forecastCacheFile cfg env now2 city) =
              some ⟨.valid d, m⟩ := by
            rw [← hfnF]
            exact hlk
          have hfr2 := hfresh _ hlk2
          exact get_forecast_hit cfg env remote now2 st city country days d
            (load_from_cache_hit cfg st now2 _ _ d m hcache hlk2 hfr2) ht
      | false =>
        rw [get_forecast_miss cfg env remote now1 st city country days c hl htc] at h1
        simp only [Except.ok.injEq] at h1
        obtain rfl := h1
        obtain ⟨hr200, htb⟩ := forecast_try_block_data_some_inv remote now1 st _ _ _ _ d hd
        have hst : (forecast_try_block remote now1 st
            (get_cache_key env now1 (pyOrStr city cfg.CITY ++ "_forecast") "forecast")
            (pyOrStr city cfg.CITY) (pyOrStr country cfg.COUNTRY)
            (pyOrNat days cfg.FORECAST_DAYS * 8)).state =
            save_to_cache st now1
              (get_cache_key env now1 (pyOrStr city cfg.CITY ++ "_forecast") "forecast")
              "forecast" d := by
          rw [htb]
        rw [hst] at hfresh ⊢
        have hlk2 : (save_to_cache st now1
            (get_cache_key env now1 (pyOrStr city cfg.CITY ++ "_forecast") "forecast")
            "forecast" d).lookup
            (forecastCacheFile cfg env now2 city) = some ⟨.valid d, now1⟩ := by
          rw [← hfnF]
          simp [save_to_cache, forecastCacheFile, List.lookup]
        have hfr2 := hfresh _ hlk2
        exact get_forecast_hit cfg env remote now2 _ city country days d
          (load_from_cache_hit cfg _ now2 _ _ d now1 hcache hlk2 hfr2) ht
  · -- stale or absent entry, current endpoint: exactly one request
    intro hstale
    have hl : load_from_cache cfg st2 now2
        (get_cache_key env now2 (pyOrStr city cfg.CITY) "current") "current" = .ok none := by
      rcases hlk : st2.lookup (cacheFileName
          (get_cache_key env now2 (pyOrStr city cfg.CITY) "current") "current") with - | f
      · exact load_from_cache_absent cfg st2 now2 _ _ hlk
      · exact load_from_cache_stale cfg st2 now2 _ _ f hlk (not_lt.mpr (hstale f hlk))
    rw [get_current_weather_miss cfg env remote now2 st2 city country none hl rfl]
    simp [weather_try_block_requests]
  · -- stale or absent entry, forecast endpoint: exactly one request
    intro hstale
    have hl : load_from_cache cfg st2 now2
        (get_cache_key env now2 (pyOrStr city cfg.CITY ++ "_forecast") "forecast") "forecast" =
        .ok none := by
      rcases hlk : st2.lookup (cacheFileName
          (get_cache_key env now2 (pyOrStr city cfg.CITY ++ "_forecast") "forecast") "forecast")
        with - | f
      · exact load_from_cache_absent cfg st2 now2 _ _ hlk
      · exact load_from_cache_stale cfg st2 now2 _ _ f hlk (not_lt.mpr (hstale f hlk))
    rw [get_forecast_miss cfg env remote now2 st2 city country days none hl rfl]
    simp [forecast_try_block_requests]

/-- A remote oracle answering every request with HTTP 200 and the empty
object `{}` (a falsy payload). -/
def remoteEmptyObj : RemoteOracle :=
  ⟨fun _ _ => .response 200 (.ok (.obj [])),
   fun _ _ _ => .response 200 (.ok (.obj [])),
   fun _ _ => .response 200 (.ok (.obj []))⟩

/-- A remote oracle answering every request with HTTP 200 and the truthy
object `{"a": 1}`. -/
def remoteAB : RemoteOracle :=
  ⟨fun _ _ => .response 200 (.ok (.obj [("a", .num 1)])),
   fun _ _ _ => .response 200 (.ok (.obj [("a", .num 1)])),
   fun _ _ => .response 200 (.ok (.obj [("a", .num 1)]))⟩

set_option maxHeartbeats 1600000 in
/-- C1 as stated is false on the code, at two concrete inputs.  (i) A first
call succeeds with the falsy payload `{}` and writes a cache file; a second
call 1800 s later — within the freshness window of the (default) 1-hour
cache — still issues one remote request instead of zero, because a falsy
cached payload is treated as a miss.  (ii) A first call at local 23:50
(t = 57000 under UTC+8) succeeds with a truthy payload; a second call 700 s
later — again within the freshness window — still issues one remote request,
because the date-keyed cache key changes across local midnight. -/
theorem cache_freshness_claim_counterexample :
    get_current_weather cfgG envG remoteEmptyObj 0 [] none none =
      .ok ⟨some (.obj []), .fetched, 1,
        save_to_cache [] 0 (get_cache_key envG 0 "Guilin" "current") "current" (.obj [])⟩ ∧
    ((1800 : ℚ) - 0 < (cfgG.CACHE_HOURS : ℚ) * 3600) ∧
    Except.map FetchRes.requests
      (get_current_weather cfgG envG remoteEmptyObj 1800
        (save_to_cache [] 0 (get_cache_key envG 0 "Guilin" "current") "current" (.obj []))
        none none) = .ok 1 ∧
    get_current_weather cfgG envG remoteAB 57000 [] none none =
      .ok ⟨some (.obj [("a", .num 1)]), .fetched, 1,
        save_to_cache [] 57000 (get_cache_key envG 57000 "Guilin" "current") "current"
          (.obj [("a", .num 1)])⟩ ∧
    ((57700 : ℚ) - 57000 < (cfgG.CACHE_HOURS : ℚ) * 3600) ∧
    Except.map FetchRes.requests
      (get_current_weather cfgG envG remoteAB 57700
        (save_to_cache [] 57000 (get_cache_key envG 57000 "Guilin" "current") "current"
          (.obj [("a", .num 1)]))
        none none) = .ok 1 := by
  refine ⟨?_, by norm_num [cfgG], ?_, ?_, by norm_num [cfgG], ?_⟩
  · rw [get_current_weather_miss cfgG envG remoteEmptyObj 0 [] none none none
      (load_from_cache_absent cfgG [] 0 _ _ rfl) rfl]
    simp [weather_try_block, remoteEmptyObj, pyOrStr, cfgG]
  · rw [get_current_weather_miss cfgG envG remoteEmptyObj 1800
      (save_to_cache [] 0 (get_cache_key envG 0 "Guilin" "current") "current" (.obj []))
      none none (some (.obj []))
      (load_from_cache_hit cfgG
        (save_to_cache [] 0 (get_cache_key envG 0 "Guilin" "current") "current" (.obj []))
        1800 (get_cache_key envG 1800 (pyOrStr none cfgG.CITY) "current") "current"
        (.obj []) 0 rfl rfl (by norm_num [cfgG])) rfl]
    simp [weather_try_block_requests]
  · rw [get_current_weather_miss cfgG envG remoteAB 57000 [] none none none
      (load_from_cache_absent cfgG [] 57000 _ _ rfl) rfl]
    simp [weather_try_block, remoteAB, pyOrStr, cfgG]
  · rw [get_current_weather_miss cfgG envG remoteAB 57700
      (save_to_cache [] 57000 (get_cache_key envG 57000 "Guilin" "current") "current"
        (.obj [("a", .num 1)]))
      none none none
      (load_from_cache_absent cfgG
        (save_to_cache [] 57000 (get_cache_key envG 57000 "Guilin" "current") "current"
          (.obj [("a", .num 1)]))
        57700 (get_cache_key envG 57700 (pyOrStr none cfgG.CITY) "current") "current" rfl) rfl]
    simp [weather_try_block_requests]

set_option maxHeartbeats 1600000 in
/-- Witness for the amended C1 at a concrete input: a fetch at t = 0 followed
by a re-query at t = 100 is served from cache with zero requests, and a query
against an empty cache directory issues exactly one request. -/
theorem cache_freshness_discipline_witness :
    get_current_weather cfgG envG remoteAB 100
      (save_to_cache [] 0 (get_cache_key envG 0 "Guilin" "current") "current"
        (.obj [("a", .num 1)])) none none =
      .ok ⟨some (.obj [("a", .num 1)]), .cacheHit, 0,
        save_to_cache [] 0 (get_cache_key envG 0 "Guilin" "current") "current"
          (.obj [("a", .num 1)])⟩ ∧
    Except.map FetchRes.requests
      (get_current_weather cfgG envG remoteAB 100 [] none none) = .ok 1 := by
  have happ := cache_freshness_discipline cfgG envG remoteAB none none none [] [] 0 100
    ⟨some (.obj [("a", .num 1)]), .fetched, 1,
      save_to_cache [] 0 (get_cache_key envG 0 "Guilin" "current") "current"
        (.obj [("a", .num 1)])⟩
    (.obj [("a", .num 1)]) rfl (by decide)
  refine ⟨?_, ?_⟩
  · refine happ.1 ?_ rfl rfl ?_
    · rw [get_current_weather_miss cfgG envG remoteAB 0 [] none none none
        (load_from_cache_absent cfgG [] 0 _ _ rfl) rfl]
      simp [weather_try_block, remoteAB, pyOrStr, cfgG]
    · intro f hf
      rw [show List.lookup (currentCacheFile cfgG envG 100 none)
          (save_to_cache [] 0 (get_cache_key envG 0 "Guilin" "current") "current"
            (.obj [("a", .num 1)])) =
          some ⟨.valid (.obj [("a", .num 1)]), 0⟩ from rfl] at hf
      obtain rfl := Option.some.inj hf
      norm_num [cfgG]
  · exact happ.2.2.1 (fun f hf => absurd hf (by simp))

/-! ## Claim C4 -/

/-- A successful lookup finds an actual entry of the directory. -/
theorem lookup_mem_pair {st : CacheState} {k : String} {f : CacheFile}
    (h : st.lookup k = some f) : (k, f) ∈ st := by
  induction st with
  | nil => simp [List.lookup] at h
  | cons hd tl ih =>
    rcases hd with ⟨a, b⟩
    rw [List.lookup] at h
    cases hb : k == a with
    | true =>
      rw [hb] at h
      simp only [Option.some.injEq] at h
      have ha : k = a := by simpa using hb
      subst ha
      subst h
      exact List.mem_cons_self _ _
    | false =>
      rw [hb] at h
      exact List.mem_cons_of_mem _ (ih h)

/-- `_load_from_cache` raises the JSON decode error on a fresh corrupted
file. -/
theorem load_from_cache_corrupt (cfg : WeatherConfig) (st : CacheState) (now : ℚ)
    (key ep : String) (m : ℚ)
    (hc : cfg.USE_CACHE = true)
    (hlk : st.lookup (cacheFileName key ep) = some ⟨.corrupt, m⟩)
    (hfresh : now - m < (cfg.CACHE_HOURS : ℚ) * 3600) :
    load_from_cache cfg st now key ep = .error .jsonDecodeError := by
  simp [load_from_cache, hc, hlk, hfresh, FileContent.jsonLoad]

/-- On a cache directory with no corrupted file, `_load_from_cache` never
raises. -/
theorem load_from_cache_intact (cfg : WeatherConfig) (st : CacheState) (now : ℚ)
    (key ep : String) (h : intactState st = true) :
    ∃ c, load_from_cache cfg st now key ep = .ok c := by
  cases hc : cfg.USE_CACHE with
  | false => exact ⟨none, load_from_cache_disabled cfg st now key ep hc⟩
  | true =>
    rcases hlk : st.lookup (cacheFileName key ep) with - | f
    · exact ⟨none, load_from_cache_absent cfg st now key ep hlk⟩
    · by_cases hfr : now - f.mtime < (cfg.CACHE_HOURS : ℚ) * 3600
      · rcases f with ⟨c, m⟩
        cases c with
        | valid j => exact ⟨some j, load_from_cache_hit cfg st now key ep j m hc hlk hfr⟩
        | corrupt =>
          have hmem := lookup_mem_pair hlk
          have := List.all_eq_true.mp h _ hmem
          simp at this
      · exact ⟨none, load_from_cache_stale cfg st now key ep f hlk hfr⟩

/-- C4 (amended): the network paths report failures as absence of data
without raising — `get_current_weather` and `get_forecast` return without an
exception for every remote behaviour provided no cache file is corrupted,
`get_weather_by_coordinates` always returns without an exception, and
`parse_weather_data` returns `None` on falsy input.  (On truthy malformed
payloads `parse_weather_data` raises, and a fresh corrupted cache file makes
the cached fetchers raise — see the counterexample.) -/
theorem failures_are_values_amended (cfg : WeatherConfig) (env : Env) (remote : RemoteOracle)
    (now : ℚ) (st : CacheState) (city country : Option String) (days : Option Nat)
    (lat lon : Option ℚ) (data : Json) (disp : Option String) :
    (intactState st = true →
       ∃ r, get_current_weather cfg env remote now st city country = .ok r) ∧
    (intactState st = true →
       ∃ r, get_forecast cfg env remote now st city country days = .ok r) ∧
    (∃ r, get_weather_by_coordinates cfg remote st lat lon = .ok r) ∧
    (data.truthy = false → parse_weather_data env data disp = .ok none) := by
  refine ⟨?_, ?_, ?_, ?_⟩
  · intro hin
    obtain ⟨c, hl⟩ := load_from_cache_intact cfg st now
      (get_cache_key env now (pyOrStr city cfg.CITY) "current") "current" hin
    cases htc : (c.getD .null).truthy with
    | true =>
      rcases c with - | c0
      · simp [Json.truthy] at htc
      · exact ⟨_, get_current_weather_hit cfg env remote now st city country c0 hl
          (by simpa using htc)⟩
    | false =>
      exact ⟨_, get_current_weather_miss cfg env remote now st city country c hl htc⟩
  · intro hin
    obtain ⟨c, hl⟩ := load_from_cache_intact cfg st now
      (get_cache_key env now (pyOrStr city cfg.CITY ++ "_forecast") "forecast") "forecast" hin
    cases htc : (c.getD .null).truthy with
    | true =>
      rcases c with - | c0
      · simp [Json.truthy] at htc
      · exact ⟨_, get_forecast_hit cfg env remote now st city country days c0 hl
          (by simpa using htc)⟩
    | false =>
      exact ⟨_, get_forecast_miss cfg env remote now st city country days c hl htc⟩
  · obtain ⟨r, r2, h1, -⟩ := coordinates_fetch_no_caching cfg remote st st lat lon
    exact ⟨r, h1⟩
  · intro hf
    simp [parse_weather_data, hf]

/-- A cache directory holding a corrupted cache file for the default city's
current-weather endpoint, written at time 0. -/
def stCorrupt : CacheState := [(currentCacheFile cfgG envG 0 none, ⟨.corrupt, 0⟩)]

set_option maxHeartbeats 1600000 in
/-- C4 as stated is false on the code, at two concrete inputs: a truthy
malformed payload (`{"foo": 1}`, no `weather` key) makes `parse_weather_data`
raise `KeyError`, and a fresh corrupted cache file makes
`get_current_weather` raise the JSON decode error (outside its `try`
block). -/
theorem failures_are_values_counterexample :
    parse_weather_data envG (.obj [("foo", .num 1)]) none = .error (.keyError "weather") ∧
    get_current_weather cfgG envG remoteExn 0 stCorrupt none none =
      .error .jsonDecodeError := by
  constructor
  · rfl
  · exact get_current_weather_load_error cfgG envG remoteExn 0 stCorrupt none none _
      (load_from_cache_corrupt cfgG stCorrupt 0
        (get_cache_key envG 0 (pyOrStr none cfgG.CITY) "current") "current" 0 rfl rfl
        (by norm_num [cfgG]))

set_option maxHeartbeats 1600000 in
/-- Witness for the amended C4 at a concrete input: an empty (hence intact)
cache directory and a remote that always raises. -/
theorem failures_are_values_witness :
    (∃ r, get_current_weather cfgG envG remoteExn 0 [] none none = .ok r) ∧
    (∃ r, get_forecast cfgG envG remoteExn 0 [] none none none = .ok r) ∧
    (∃ r, get_weather_by_coordinates cfgG remoteExn [] none none = .ok r) ∧
    parse_weather_data envG .null none = .ok none := by
  obtain ⟨h1, h2, h3, h4⟩ := failures_are_values_amended cfgG envG remoteExn 0 [] none none
    none none none .null none
  exact ⟨h1 rfl, h2 rfl, h3, h4 rfl⟩

/-! ## Claim C6 -/

/-- The record `parse_weather_data` produces on a payload carrying all the
fields it consumes, with the numeric fields numeric.  Shared by the proofs
about `parse_weather_data` and `compare_cities`. -/
theorem parse_weather_data_wellformed (env : Env) (kvs : JObj) (disp : String)
    (w0 : JObj) (restW : List Json) (mainKw : String)
    (desc country clouds pressure tzv : Json)
    (sysO mainO windO cloudsO : JObj)
    (dt temp feels_like temp_max temp_min humidity wind_speed sunrise sunset : ℚ)
    (hne : kvs ≠ [])
    (hdisp : disp.isEmpty = false)
    (hweather : kvs.lookup "weather" = some (.arr (Json.obj w0 :: restW)))
    (hmain : w0.lookup "main" = some (.str mainKw))
    (hdesc : w0.lookup "description" = some desc)
    (hsys : kvs.lookup "sys" = some (.obj sysO))
    (hcountry : sysO.lookup "country" = some country)
    (hsunrise : sysO.lookup "sunrise" = some (.num sunrise))
    (hsunset : sysO.lookup "sunset" = some (.num sunset))
    (hdt : kvs.lookup "dt" = some (.num dt))
    (hmainO : kvs.lookup "main" = some (.obj mainO))
    (htemp : mainO.lookup "temp" = some (.num temp))
    (hfeels : mainO.lookup "feels_like" = some (.num feels_like))
    (htmax : mainO.lookup "temp_max" = some (.num temp_max))
    (htmin : mainO.lookup "temp_min" = some (.num temp_min))
    (hhum : mainO.lookup "humidity" = some (.num humidity))
    (hpress : mainO.lookup "pressure" = some pressure)
    (hwindO : kvs.lookup "wind" = some (.obj windO))
    (hspeed : windO.lookup "speed" = some (.num wind_speed))
    (hcloudsO : kvs.lookup "clouds" = some (.obj cloudsO))
    (hall : cloudsO.lookup "all" = some clouds)
    (htz : kvs.lookup "timezone" = some tzv) :
    parse_weather_data env (.obj kvs) (some disp) =
      .ok (some
        [("城市", .str disp),
         ("实际城市名", (kvs.lookup "name").getD (.str "未知")),
         ("国家", country),
         ("更新时间", .str (fmtFull env dt)),
         ("天气状况", .str ((WEATHER_MAP.lookup mainKw).getD mainKw)),
         ("详细描述", desc),
         ("当前温度(℃)", .num (round1 temp)),
         ("体感温度(℃)", .num (round1 feels_like)),
         ("最高温度(℃)", .num (round1 temp_max)),
         ("最低温度(℃)", .num (round1 temp_min)),
         ("湿度(%)", .num humidity),
         ("气压(hPa)", pressure),
         ("风速(m/s)", .num wind_speed),
         ("风向(°)", (windO.lookup "deg").getD (.str "无数据")),
         ("云量(%)", clouds),
         ("能见度(m)", (kvs.lookup "visibility").getD (.str "无数据")),
         ("日出时间", .str (fmtHMS env sunrise)),
         ("日落时间", .str (fmtHMS env sunset)),
         ("时区偏移", tzv),
         ("数据来源", .str "OpenWeatherMap"),
         ("舒适度评级", .str (calculate_comfort_index (round1 temp) humidity wind_speed))]) := by
  have htr : Json.truthy (.obj kvs) = true := by simp [Json.truthy, hne]
  simp [parse_weather_data, htr, hdisp, Json.getItem, Json.getIdx, Json.dictGet, Json.asNum,
    hweather, hmain, hdesc, hsys, hcountry, hsunrise, hsunset, hdt, hmainO, htemp, hfeels,
    htmax, htmin, hhum, hpress, hwindO, hspeed, hcloudsO, hall, htz]

/-- Python `round(x, 1)` lands on an exact multiple of 1/10: one decimal
place. -/
theorem round1_mul_ten_den (q : ℚ) : (round1 q * 10).den = 1 := by
  unfold round1
  rw [div_mul_cancel₀ _ (by norm_num : (10:ℚ) ≠ 0)]
  exact Rat.den_intCast _

/-- `%H:%M:%S` renders two-digit hour, minute and second fields in range,
separated by colons. -/
theorem fmtHMS_format (env : Env) (t : ℚ) :
    ∃ hh mm ss : ℤ, 0 ≤ hh ∧ hh < 24 ∧ 0 ≤ mm ∧ mm < 60 ∧ 0 ≤ ss ∧ ss < 60 ∧
      fmtHMS env t = pad2 hh ++ ":" ++ pad2 mm ++ ":" ++ pad2 ss := by
  refine ⟨localSecOfDay env t / 3600, localSecOfDay env t % 3600 / 60,
    localSecOfDay env t % 60, ?_, ?_, ?_, ?_, ?_, ?_, rfl⟩ <;>
    simp only [localSecOfDay] <;> omega

/-- `%H:%M:%S` output is always eight characters. -/
theorem fmtHMS_length (env : Env) (t : ℚ) : (fmtHMS env t).length = 8 := by
  have h1 : (":" : String).length = 1 := rfl
  simp [fmtHMS, String.length_append, pad2_length, h1]

/-- C6: on a well-formed raw payload, `parse_weather_data` is a pure
transform that maps the condition keyword `weather[0].main` through the fixed
lookup table with passthrough for absent keywords, rounds the four
temperature fields to exactly one decimal place (the value is an exact
multiple of 1/10), and renders the sunrise/sunset timestamps as `HH:MM:SS`
local-time strings (two-digit in-range fields separated by colons, eight
characters). -/
theorem parse_transform_spec (env : Env) (kvs : JObj) (disp : String)
    (w0 : JObj) (restW : List Json) (mainKw : String)
    (desc country clouds pressure tzv : Json)
    (sysO mainO windO cloudsO : JObj)
    (dt temp feels_like temp_max temp_min humidity wind_speed sunrise sunset : ℚ)
    (hne : kvs ≠ [])
    (hdisp : disp.isEmpty = false)
    (hweather : kvs.lookup "weather" = some (.arr (Json.obj w0 :: restW)))
    (hmain : w0.lookup "main" = some (.str mainKw))
    (hdesc : w0.lookup "description" = some desc)
    (hsys : kvs.lookup "sys" = some (.obj sysO))
    (hcountry : sysO.lookup "country" = some country)
    (hsunrise : sysO.lookup "sunrise" = some (.num sunrise))
    (hsunset : sysO.lookup "sunset" = some (.num sunset))
    (hdt : kvs.lookup "dt" = some (.num dt))
    (hmainO : kvs.lookup "main" = some (.obj mainO))
    (htemp : mainO.lookup "temp" = some (.num temp))
    (hfeels : mainO.lookup "feels_like" = some (.num feels_like))
    (htmax : mainO.lookup "temp_max" = some (.num temp_max))
    (htmin : mainO.lookup "temp_min" = some (.num temp_min))
    (hhum : mainO.lookup "humidity" = some (.num humidity))
    (hpress : mainO.lookup "pressure" = some pressure)
    (hwindO : kvs.lookup "wind" = some (.obj windO))
    (hspeed : windO.lookup "speed" = some (.num wind_speed))
    (hcloudsO : kvs.lookup "clouds" = some (.obj cloudsO))
    (hall : cloudsO.lookup "all" = some clouds)
    (htz : kvs.lookup "timezone" = some tzv) :
    ∃ parsed : JObj,
      parse_weather_data env (.obj kvs) (some disp) = .ok (some parsed) ∧
      parsed.lookup "天气状况" = some (.str ((WEATHER_MAP.lookup mainKw).getD mainKw)) ∧
      (WEATHER_MAP.lookup mainKw = none → parsed.lookup "天气状况" = some (.str mainKw)) ∧
      parsed.lookup "当前温度(℃)" = some (.num (round1 temp)) ∧
      parsed.lookup "体感温度(℃)" = some (.num (round1 feels_like)) ∧
      parsed.lookup "最高温度(℃)" = some (.num (round1 temp_max)) ∧
      parsed.lookup "最低温度(℃)" = some (.num (round1 temp_min)) ∧
      (round1 temp * 10).den = 1 ∧ (round1 feels_like * 10).den = 1 ∧
      (round1 temp_max * 10).den = 1 ∧ (round1 temp_min * 10).den = 1 ∧
      parsed.lookup "日出时间" = some (.str (fmtHMS env sunrise)) ∧
      parsed.lookup "日落时间" = some (.str (fmtHMS env sunset)) ∧
      (∃ hh mm ss : ℤ, 0 ≤ hh ∧ hh < 24 ∧ 0 ≤ mm ∧ mm < 60 ∧ 0 ≤ ss ∧ ss < 60 ∧
        fmtHMS env sunrise = pad2 hh ++ ":" ++ pad2 mm ++ ":" ++ pad2 ss) ∧
      (∃ hh mm ss : ℤ, 0 ≤ hh ∧ hh < 24 ∧ 0 ≤ mm ∧ mm < 60 ∧ 0 ≤ ss ∧ ss < 60 ∧
        fmtHMS env sunset = pad2 hh ++ ":" ++ pad2 mm ++ ":" ++ pad2 ss) ∧
      (fmtHMS env sunrise).length = 8 ∧ (fmtHMS env sunset).length = 8 := by
  refine ⟨_, parse_weather_data_wellformed env kvs disp w0 restW mainKw desc country clouds
    pressure tzv sysO mainO windO cloudsO dt temp feels_like temp_max temp_min humidity
    wind_speed sunrise sunset hne hdisp hweather hmain hdesc hsys hcountry hsunrise hsunset
    hdt hmainO htemp hfeels htmax htmin hhum hpress hwindO hspeed hcloudsO hall htz,
    rfl, ?_, rfl, rfl, rfl, rfl,
    round1_mul_ten_den temp, round1_mul_ten_den feels_like,
    round1_mul_ten_den temp_max, round1_mul_ten_den temp_min,
    rfl, rfl, fmtHMS_format env sunrise, fmtHMS_format env sunset,
    fmtHMS_length env sunrise, fmtHMS_length env sunset⟩
  intro habs
  rw [show List.lookup "天气状况"
      [("城市", Json.str disp),
       ("实际城市名", (kvs.lookup "name").getD (.str "未知")),
       ("国家", country),
       ("更新时间", .str (fmtFull env dt)),
       ("天气状况", .str ((WEATHER_MAP.lookup mainKw).getD mainKw)),
       ("详细描述", desc),
       ("当前温度(℃)", .num (round1 temp)),
       ("体感温度(℃)", .num (round1 feels_like)),
       ("最高温度(℃)", .num (round1 temp_max)),
       ("最低温度(℃)", .num (round1 temp_min)),
       ("湿度(%)", .num humidity),
       ("气压(hPa)", pressure),
       ("风速(m/s)", .num wind_speed),
       ("风向(°)", (windO.lookup "deg").getD (.str "无数据")),
       ("云量(%)", clouds),
       ("能见度(m)", (kvs.lookup "visibility").getD (.str "无数据")),
       ("日出时间", .str (fmtHMS env sunrise)),
       ("日落时间", .str (fmtHMS env sunset)),
       ("时区偏移", tzv),
       ("数据来源", .str "OpenWeatherMap"),
       ("舒适度评级", .str (calculate_comfort_index (round1 temp) humidity wind_speed))] =
    some (.str ((WEATHER_MAP.lookup mainKw).getD mainKw)) from rfl]
  rw [habs]
  rfl

/-- A concrete well-formed raw payload (all fields the parser consumes). -/
def rawG : JObj :=
  [("name", .str "Guilin"),
   ("weather", .arr [.obj [("main", .str "Clear"), ("description", .str "晴")]]),
   ("sys", .obj [("country", .str "CN"), ("sunrise", .num 1600000000),
                 ("sunset", .num 1600040000)]),
   ("dt", .num 1600000000),
   ("main", .obj [("temp", .num (2512/100)), ("feels_like", .num 25), ("temp_max", .num 26),
                  ("temp_min", .num 24), ("humidity", .num 50), ("pressure", .num 1013)]),
   ("wind", .obj [("speed", .num 3)]),
   ("clouds", .obj [("all", .num 10)]),
   ("timezone", .num 28800)]

set_option maxHeartbeats 1600000 in
/-- Witness for C6 at the concrete payload `rawG`. -/
theorem parse_transform_spec_witness :
    ∃ parsed : JObj,
      parse_weather_data envG (.obj rawG) (some "桂林") = .ok (some parsed) ∧
      parsed.lookup "天气状况" = some (.str ((WEATHER_MAP.lookup "Clear").getD "Clear")) ∧
      (WEATHER_MAP.lookup "Clear" = none → parsed.lookup "天气状况" = some (.str "Clear")) ∧
      parsed.lookup "当前温度(℃)" = some (.num (round1 (2512/100))) ∧
      parsed.lookup "体感温度(℃)" = some (.num (round1 25)) ∧
      parsed.lookup "最高温度(℃)" = some (.num (round1 26)) ∧
      parsed.lookup "最低温度(℃)" = some (.num (round1 24)) ∧
      (round1 (2512/100) * 10).den = 1 ∧ (round1 25 * 10).den = 1 ∧
      (round1 26 * 10).den = 1 ∧ (round1 24 * 10).den = 1 ∧
      parsed.lookup "日出时间" = some (.str (fmtHMS envG 1600000000)) ∧
      parsed.lookup "日落时间" = some (.str (fmtHMS envG 1600040000)) ∧
      (∃ hh mm ss : ℤ, 0 ≤ hh ∧ hh < 24 ∧ 0 ≤ mm ∧ mm < 60 ∧ 0 ≤ ss ∧ ss < 60 ∧
        fmtHMS envG 1600000000 = pad2 hh ++ ":" ++ pad2 mm ++ ":" ++ pad2 ss) ∧
      (∃ hh mm ss : ℤ, 0 ≤ hh ∧ hh < 24 ∧ 0 ≤ mm ∧ mm < 60 ∧ 0 ≤ ss ∧ ss < 60 ∧
        fmtHMS envG 1600040000 = pad2 hh ++ ":" ++ pad2 mm ++ ":" ++ pad2 ss) ∧
      (fmtHMS envG 1600000000).length = 8 ∧ (fmtHMS envG 1600040000).length = 8 :=
  parse_transform_spec envG rawG "桂林"
    [("main", .str "Clear"), ("description", .str "晴")] [] "Clear" (.str "晴") (.str "CN")
    (.num 10) (.num 1013) (.num 28800)
    [("country", .str "CN"), ("sunrise", .num 1600000000), ("sunset", .num 1600040000)]
    [("temp", .num (2512/100)), ("feels_like", .num 25), ("temp_max", .num 26),
     ("temp_min", .num 24), ("humidity", .num 50), ("pressure", .num 1013)]
    [("speed", .num 3)] [("all", .num 10)]
    1600000000 (2512/100) 25 26 24 50 3 1600000000 1600040000
    (by simp [rawG]) rfl rfl rfl rfl rfl rfl rfl rfl rfl rfl rfl rfl rfl rfl rfl rfl rfl rfl rfl rfl rfl

/-! ## Claim C8 -/

theorem pyOrStr_some (s d : String) (h : s.isEmpty = false) : pyOrStr (some s) d = s := by
  simp [pyOrStr, h]

/-- A fetch of a city whose remote reply is 200 with a decodable body, under
disabled caching: one request, the payload returned, some new directory. -/
theorem fetch_city_success (cfg : WeatherConfig) (env : Env) (remote : RemoteOracle)
    (t : ℚ) (stX : CacheState) (i : CityInfo) (c : String) (p : Json)
    (hnc : cfg.USE_CACHE = false)
    (hcity : i.city = some c) (hc : c.isEmpty = false)
    (hcc : ((i.country).getD "CN").isEmpty = false)
    (hr : remote.weather c ((i.country).getD "CN") = .response 200 (.ok p)) :
    get_current_weather cfg env remote t stX i.city (some ((i.country).getD "CN")) =
      .ok ⟨some p, .fetched, 1,
        save_to_cache stX t (get_cache_key env t c "current") "current" p⟩ := by
  rw [hcity]
  rw [get_current_weather_miss cfg env remote t stX (some c) (some ((i.country).getD "CN"))
    none (load_from_cache_disabled cfg stX t _ _ hnc) rfl]
  rw [pyOrStr_some c cfg.CITY hc, pyOrStr_some _ cfg.COUNTRY hcc]
  simp [weather_try_block, hr]

/-- A fetch of a city whose remote reply is 404, under disabled caching: one
request, no data, directory unchanged. -/
theorem fetch_city_404 (cfg : WeatherConfig) (env : Env) (remote : RemoteOracle)
    (t : ℚ) (stX : CacheState) (i : CityInfo) (c : String) (b : Except PyExc Json)
    (hnc : cfg.USE_CACHE = false)
    (hcity : i.city = some c) (hc : c.isEmpty = false)
    (hcc : ((i.country).getD "CN").isEmpty = false)
    (hr : remote.weather c ((i.country).getD "CN") = .response 404 b) :
    get_current_weather cfg env remote t stX i.city (some ((i.country).getD "CN")) =
      .ok ⟨none, .notFound, 1, stX⟩ := by
  rw [hcity]
  rw [get_current_weather_miss cfg env remote t stX (some c) (some ((i.country).getD "CN"))
    none (load_from_cache_disabled cfg stX t _ _ hnc) rfl]
  rw [pyOrStr_some c cfg.CITY hc, pyOrStr_some _ cfg.COUNTRY hcc]
  simp [weather_try_block, hr]

/-- C8: `compare_cities` on three cities whose second fetch fails (404)
fetches sequentially, skips the failed city without a placeholder row, and
returns exactly the two rows of the first and third city, in input order,
with the reduced field set; remote requests are issued 1.1 s apart. -/
theorem compare_cities_scenario (cfg : WeatherConfig) (env : Env) (remote : RemoteOracle)
    (i1 i2 i3 : CityInfo) (c1 c2 c3 d1 d3 : String) (p1 p3 : Json)
    (b2 : Except PyExc Json) (rec1 rec3 : JObj)
    (v1 v2 v3 v4 v5 v6 v7 w1 w2 w3 w4 w5 w6 w7 : Json)
    (st : CacheState) (now : ℚ)
    (hnc : cfg.USE_CACHE = false)
    (hcity1 : i1.city = some c1) (hc1 : c1.isEmpty = false)
    (hcity2 : i2.city = some c2) (hc2 : c2.isEmpty = false)
    (hcity3 : i3.city = some c3) (hc3 : c3.isEmpty = false)
    (hcc1 : ((i1.country).getD "CN").isEmpty = false)
    (hcc2 : ((i2.country).getD "CN").isEmpty = false)
    (hcc3 : ((i3.country).getD "CN").isEmpty = false)
    (hdisp1 : i1.display_name = some d1) (hdisp3 : i3.display_name = some d3)
    (hr1 : remote.weather c1 ((i1.country).getD "CN") = .response 200 (.ok p1))
    (hr2 : remote.weather c2 ((i2.country).getD "CN") = .response 404 b2)
    (hr3 : remote.weather c3 ((i3.country).getD "CN") = .response 200 (.ok p3))
    (htp1 : p1.truthy = true) (htp3 : p3.truthy = true)
    (hp1 : parse_weather_data env p1 (some d1) = .ok (some rec1))
    (hp3 : parse_weather_data env p3 (some d3) = .ok (some rec3))
    (hne1 : rec1.isEmpty = false) (hne3 : rec3.isEmpty = false)
    (hv1 : rec1.lookup "城市" = some v1)
    (hv2 : rec1.lookup "当前温度(℃)" = some v2)
    (hv3 : rec1.lookup "体感温度(℃)" = some v3)
    (hv4 : rec1.lookup "天气状况" = some v4)
    (hv5 : rec1.lookup "湿度(%)" = some v5)
    (hv6 : rec1.lookup "风速(m/s)" = some v6)
    (hv7 : rec1.lookup "舒适度评级" = some v7)
    (hw1 : rec3.lookup "城市" = some w1)
    (hw2 : rec3.lookup "当前温度(℃)" = some w2)
    (hw3 : rec3.lookup "体感温度(℃)" = some w3)
    (hw4 : rec3.lookup "天气状况" = some w4)
    (hw5 : rec3.lookup "湿度(%)" = some w5)
    (hw6 : rec3.lookup "风速(m/s)" = some w6)
    (hw7 : rec3.lookup "舒适度评级" = some w7) :
    ∃ res : CompareRes,
      compare_cities cfg env remote [i1, i2, i3] st now = .ok res ∧
      res.rows =
        [[("城市", v1), ("温度(℃)", v2), ("体感温度(℃)", v3), ("天气状况", v4),
          ("湿度(%)", v5), ("风速(m/s)", v6), ("舒适度", v7)],
         [("城市", w1), ("温度(℃)", w2), ("体感温度(℃)", w3), ("天气状况", w4),
          ("湿度(%)", w5), ("风速(m/s)", w6), ("舒适度", w7)]] ∧
      res.rows.length = 2 ∧
      res.reqTimes = [now, now + 11/10, now + 11/10 + 11/10] ∧
      res.reqTimes.Chain' (fun a b => 11/10 ≤ b - a) := by
  have f1 := fetch_city_success cfg env remote now st i1 c1 p1 hnc hcity1 hc1 hcc1 hr1
  have f2 := fetch_city_404 cfg env remote (now + 11/10)
    (save_to_cache st now (get_cache_key env now c1 "current") "current" p1) i2 c2 b2
    hnc hcity2 hc2 hcc2 hr2
  have f3 := fetch_city_success cfg env remote (now + 11/10 + 11/10)
    (save_to_cache st now (get_cache_key env now c1 "current") "current" p1) i3 c3 p3
    hnc hcity3 hc3 hcc3 hr3
  refine ⟨⟨[[("城市", v1), ("温度(℃)", v2), ("体感温度(℃)", v3), ("天气状况", v4),
          ("湿度(%)", v5), ("风速(m/s)", v6), ("舒适度", v7)],
         [("城市", w1), ("温度(℃)", w2), ("体感温度(℃)", w3), ("天气状况", w4),
          ("湿度(%)", w5), ("风速(m/s)", w6), ("舒适度", w7)]],
      [now, now + 11/10, now + 11/10 + 11/10],
      save_to_cache
        (save_to_cache st now (get_cache_key env now c1 "current") "current" p1)
        (now + 11/10 + 11/10) (get_cache_key env (now + 11/10 + 11/10) c3 "current")
        "current" p3,
      now + 11/10 + 11/10 + 11/10⟩, ?_, rfl, rfl, rfl, ?_⟩
  · have ht1 : (Json.obj rec1).truthy = true := by simp [Json.truthy, hne1]
    have ht3 : (Json.obj rec3).truthy = true := by simp [Json.truthy, hne3]
    have htnull : Json.null.truthy = false := rfl
    simp only [compare_cities, hdisp1, hdisp3, f1, f2, f3, excBind_ok, excPure_eq]
    simp [htp1, htp3, ht1, ht3, htnull, hp1, hp3, jobjGet,
      hv1, hv2, hv3, hv4, hv5, hv6, hv7, hw1, hw2, hw3, hw4, hw5, hw6, hw7]
  · simp only [List.chain'_cons, List.chain'_singleton, and_true]
    constructor <;> linarith

/-- The record `parse_weather_data` produces on `rawG` with display name
`d`. -/
def recGd (d : String) : JObj :=
  [("城市", .str d),
   ("实际城市名", (rawG.lookup "name").getD (.str "未知")),
   ("国家", .str "CN"),
   ("更新时间", .str (fmtFull envG 1600000000)),
   ("天气状况", .str ((WEATHER_MAP.lookup "Clear").getD "Clear")),
   ("详细描述", .str "晴"),
   ("当前温度(℃)", .num (round1 (2512/100))),
   ("体感温度(℃)", .num (round1 25)),
   ("最高温度(℃)", .num (round1 26)),
   ("最低温度(℃)", .num (round1 24)),
   ("湿度(%)", .num 50),
   ("气压(hPa)", .num 1013),
   ("风速(m/s)", .num 3),
   ("风向(°)", (([("speed", Json.num 3)] : JObj).lookup "deg").getD (.str "无数据")),
   ("云量(%)", .num 10),
   ("能见度(m)", (rawG.lookup "visibility").getD (.str "无数据")),
   ("日出时间", .str (fmtHMS envG 1600000000)),
   ("日落时间", .str (fmtHMS envG 1600040000)),
   ("时区偏移", .num 28800),
   ("数据来源", .str "OpenWeatherMap"),
   ("舒适度评级", .str (calculate_comfort_index (round1 (2512/100)) 50 3))]

set_option maxHeartbeats 1600000 in
/-- Parsing `rawG` with a non-empty display name yields `recGd`. -/
theorem parse_rawG (d : String) (hd : d.isEmpty = false) :
    parse_weather_data envG (.obj rawG) (some d) = .ok (some (recGd d)) :=
  parse_weather_data_wellformed envG rawG d
    [("main", .str "Clear"), ("description", .str "晴")] [] "Clear" (.str "晴") (.str "CN")
    (.num 10) (.num 1013) (.num 28800)
    [("country", .str "CN"), ("sunrise", .num 1600000000), ("sunset", .num 1600040000)]
    [("temp", .num (2512/100)), ("feels_like", .num 25), ("temp_max", .num 26),
     ("temp_min", .num 24), ("humidity", .num 50), ("pressure", .num 1013)]
    [("speed", .num 3)] [("all", .num 10)]
    1600000000 (2512/100) 25 26 24 50 3 1600000000 1600040000
    (by simp [rawG]) hd rfl rfl rfl rfl rfl rfl rfl rfl rfl rfl rfl rfl rfl rfl rfl rfl rfl rfl
    rfl rfl

/-- Configuration with caching disabled (otherwise the `config.py`
defaults). -/
def cfgNoCache : WeatherConfig :=
  ⟨"Guilin", "CN", 252741/10000, 1102993/10000, false, 1, 5, "zh_cn"⟩

/-- A remote oracle for the three-city scenario: `CityB` is unknown (404),
every other city resolves to `rawG`. -/
def remoteScenario : RemoteOracle :=
  ⟨fun c _ => if c = "CityB" then .response 404 (.ok .null)
              else .response 200 (.ok (.obj rawG)),
   fun _ _ _ => .netExn, fun _ _ => .netExn⟩

set_option maxHeartbeats 1600000 in
/-- Witness for C8 at a concrete input: three cities, the second unknown. -/
theorem compare_cities_scenario_witness :
    ∃ res : CompareRes,
      compare_cities cfgNoCache envG remoteScenario
        [⟨some "CityA", none, some "桂林"⟩, ⟨some "CityB", none, none⟩,
         ⟨some "CityC", none, some "梧州"⟩] [] 0 = .ok res ∧
      res.rows =
        [[("城市", .str "桂林"), ("温度(℃)", .num (round1 (2512/100))),
          ("体感温度(℃)", .num (round1 25)),
          ("天气状况", .str ((WEATHER_MAP.lookup "Clear").getD "Clear")),
          ("湿度(%)", .num 50), ("风速(m/s)", .num 3),
          ("舒适度", .str (calculate_comfort_index (round1 (2512/100)) 50 3))],
         [("城市", .str "梧州"), ("温度(℃)", .num (round1 (2512/100))),
          ("体感温度(℃)", .num (round1 25)),
          ("天气状况", .str ((WEATHER_MAP.lookup "Clear").getD "Clear")),
          ("湿度(%)", .num 50), ("风速(m/s)", .num 3),
          ("舒适度", .str (calculate_comfort_index (round1 (2512/100)) 50 3))]] ∧
      res.rows.length = 2 ∧
      res.reqTimes = [0, 0 + 11/10, 0 + 11/10 + 11/10] ∧
      res.reqTimes.Chain' (fun a b => 11/10 ≤ b - a) :=
  compare_cities_scenario cfgNoCache envG remoteScenario
    ⟨some "CityA", none, some "桂林"⟩ ⟨some "CityB", none, none⟩
    ⟨some "CityC", none, some "梧州"⟩
    "CityA" "CityB" "CityC" "桂林" "梧州" (.obj rawG) (.obj rawG) (.ok .null)
    (recGd "桂林") (recGd "梧州")
    (.str "桂林") (.num (round1 (2512/100))) (.num (round1 25))
    (.str ((WEATHER_MAP.lookup "Clear").getD "Clear")) (.num 50) (.num 3)
    (.str (calculate_comfort_index (round1 (2512/100)) 50 3))
    (.str "梧州") (.num (round1 (2512/100))) (.num (round1 25))
    (.str ((WEATHER_MAP.lookup "Clear").getD "Clear")) (.num 50) (.num 3)
    (.str (calculate_comfort_index (round1 (2512/100)) 50 3))
    [] 0 rfl rfl rfl rfl rfl rfl rfl rfl rfl rfl rfl rfl rfl rfl rfl rfl rfl
    (parse_rawG "桂林" rfl) (parse_rawG "梧州" rfl) rfl rfl
    rfl rfl rfl rfl rfl rfl rfl rfl rfl rfl rfl rfl rfl rfl
